import Mathlib

/-!
# Verification of the food-ai-agency reservation orchestration engine

Shallow embedding of `backend/services/reservation_agent.py`,
`backend/services/tabelog_reservation.py` and
`backend/services/toreta_reservation.py`.

Python strings are modelled as Lean `String`; substring tests (`x in s`)
as an executable character-list containment check; `str.lower` as the
ASCII lowering used by `Char.toLower` (the Japanese keywords compared in
the code are unaffected by case mapping).  Timestamps produced by
`datetime.fromisoformat` are modelled abstractly as `Int` (datetime
values carry a total order; only ordering and formatting are used), with
the library parser and the `strftime` formatters supplied as oracles in
the per-call environment, together with the language-model reply and the
results of the external browser services.
-/

namespace FoodAI

/-! ## String primitives (Python `in`, `startswith`, `lower`, `strip`) -/

/-- `listStarts n l` : `n` occurs at the head of `l` (`l.startswith(n)`). -/
def listStarts : List Char → List Char → Bool
  | [], _ => true
  | _ :: _, [] => false
  | a :: as, b :: bs => a == b && listStarts as bs

/-- `listHas n l` : `n` occurs contiguously somewhere in `l` (Python `n in l`). -/
def listHas (n : List Char) : List Char → Bool
  | [] => listStarts n []
  | c :: cs => listStarts n (c :: cs) || listHas n cs

/-- Python `needle in hay` on strings. -/
def strHas (hay needle : String) : Bool := listHas needle.data hay.data

/-- Python `hay.startswith(needle)`. -/
def strStarts (hay needle : String) : Bool := listStarts needle.data hay.data

/-- Python `s.lower()` (ASCII case mapping; the code only compares ASCII
and Japanese text, on which this agrees with Python). -/
def strLower (s : String) : String := ⟨s.data.map Char.toLower⟩

/-- Python `\s` / `str.strip` whitespace (ASCII whitespace plus the
ideographic space U+3000). -/
def isSpaceChar (c : Char) : Bool :=
  c == ' ' || c == '\t' || c == '\n' || c == '\r' ||
  c == Char.ofNat 11 || c == Char.ofNat 12 || c == Char.ofNat 0x3000

def isDigitChar (c : Char) : Bool := '0' ≤ c && c ≤ '9'

/-- Python `s.strip()` on a character list. -/
def listStrip (l : List Char) : List Char :=
  ((l.dropWhile isSpaceChar).reverse.dropWhile isSpaceChar).reverse

/-- Python `s.strip()`. -/
def pyStrip (s : String) : String := ⟨listStrip s.data⟩

/-! ## Restaurant record and availability assessment
(`ReservationAgent._check_restaurant_booking_availability`) -/

/-- The restaurant record consumed by `start_reservation`.  The Python
code reads it with `dict.get(key, '')`-style defaults; a missing key is
modelled as the empty string. -/
structure Restaurant where
  name : String := ""
  address : String := ""
  phone_number : String := ""
  website : String := ""
  place_id : String := ""
deriving Repr, DecidableEq

/-- `chain_restaurants` list from the source. -/
def chain_restaurants : List String :=
  ["すかいらーく", "ガスト", "ジョナサン", "バーミヤン", "ココス",
   "くら寿司", "スシロー", "はま寿司", "かっぱ寿司",
   "マクドナルド", "ケンタッキー", "モスバーガー",
   "デニーズ", "ロイヤルホスト", "ビッグボーイ",
   "鳥貴族", "和民", "魚民", "白木屋", "笑笑"]

/-- `upscale_keywords` (computed in the source but used only for logging). -/
def upscale_keywords : List String :=
  ["割烹", "懐石", "フレンチ", "イタリアン", "鉄板焼", "寿司", "天ぷら",
   "和食", "日本料理", "料亭", "会席"]

/-- Reservation-related website keywords of the second decision branch. -/
def reservation_site_keywords : List String :=
  ["reservation", "予約", "booking", "table"]

/-- `exclusive_phone_only` keyword subset of the third decision branch. -/
def exclusive_phone_only : List String := ["割烹", "懐石", "料亭", "会席"]

/-- `AvailabilityAssessment` dictionary. `confidence` is a rational
standing for the Python float literals 0.7/0.8/0.9. -/
structure Availability where
  available : Bool
  method : Option String := none
  method_description : Option String := none
  confidence : Option ℚ := none
  reason : Option String := none
  phone_number : Option String := none
  fallback_phone : Option String := none
  alternative_methods : List String := []
deriving Repr, DecidableEq

/-- `is_chain` of the assessor: the lowered name contains a chain keyword. -/
def isChainName (r : Restaurant) : Bool :=
  chain_restaurants.any (fun c => strHas (strLower r.name) c)

/-- The lowered website contains a reservation-related keyword. -/
def hasReservationKeyword (r : Restaurant) : Bool :=
  reservation_site_keywords.any (fun k => strHas (strLower r.website) k)

/-- The lowered name contains an exclusive phone-only luxury keyword. -/
def isExclusivePhoneOnlyName (r : Restaurant) : Bool :=
  exclusive_phone_only.any (fun k => strHas (strLower r.name) k)

/-- `ReservationAgent._check_restaurant_booking_availability`.  The
decision table of the source, evaluated in order, first match wins.
(`is_upscale`, `is_small_business`, `is_chinese` are computed in the
source but only logged, so they do not appear here.) -/
def checkRestaurantBookingAvailability (r : Restaurant) : Availability :=
  let website := r.website
  let phone_number := r.phone_number
  if isChainName r && (!website.isEmpty || !phone_number.isEmpty) then
    { available := true, method := some "web_form",
      method_description := some "オンライン予約システム（チェーン店）",
      confidence := some (mkRat 8 10) }
  else if !website.isEmpty && hasReservationKeyword r then
    { available := true, method := some "web_form",
      method_description := some "ウェブサイト予約フォーム",
      confidence := some (mkRat 9 10) }
  else if !phone_number.isEmpty then
    if isExclusivePhoneOnlyName r then
      { available := false,
        reason := some "このレストランは電話予約のみ対応しています（高級店のため）",
        method := some "phone_only",
        phone_number := some phone_number,
        alternative_methods :=
          ["📞 直接お電話: " ++ phone_number,
           "🌐 予約サイト（ぐるなび、食べログ、ホットペッパーなど）",
           "🚶 店舗への直接来店"] }
    else
      { available := true, method := some "web_form",
        method_description := some "ウェブサイトまたは電話予約",
        confidence := some (mkRat 7 10),
        fallback_phone := some phone_number }
  else
    { available := false,
      reason := some "予約システムの情報が不足しています",
      alternative_methods :=
        ["🌐 レストランの公式サイトを確認",
         "🚶 店舗への直接来店"] }

/-! ## Session data model -/

/-- Contact dictionary built by `_extract_contact_info`; the `email` key
is only added later by `_handle_email_input` / `_handle_bulk_form_data`. -/
structure Contact where
  name : String := ""
  phone : String := ""
  email : Option String := none
deriving Repr, DecidableEq

/-- The `session['data']` collected-fields record. -/
structure SessionData where
  datetime : Option String := none
  party_size : Option Nat := none
  contact : Option Contact := none
  email : Option String := none
  special_requests : Option String := none
deriving Repr, DecidableEq

/-- `booking_info` dictionary attached to driver results. -/
structure BookingInfo where
  date : Option String := none
  time : Option String := none
  party_size : Option Nat := none
  customer_name : Option String := none
  phone : Option String := none
  email : Option String := none
  restaurant_url : Option String := none
deriving Repr, DecidableEq

/-- Result dictionary of a booking attempt (driver services,
`_execute_tabelog_booking`, `_execute_toreta_booking`, and the inline
`not_supported` result).  Optional fields model keys that are present in
some results and absent in others; `.get` with a default is `Option.getD`. -/
structure BookingResult where
  success : Bool := false
  error : Option String := none
  message : Option String := none
  semi_automated : Bool := false
  browser_opened : Bool := false
  manual_booking_required : Bool := false
  booking_info : Option BookingInfo := none
  restaurant_url : Option String := none
  current_url : Option String := none
  phone_number : Option String := none
  instructions : List String := []
  reservation_id : Option String := none
  steps_completed : List String := []
  method : Option String := none
  website : Option String := none
  supported_systems : List String := []
  alternative : Option String := none
  restaurant_name : Option String := none
  booking_details : Option SessionData := none
  details : Option BookingInfo := none
deriving Repr, DecidableEq

/-- One entry of `self.reservation_sessions`. -/
structure Session where
  restaurant : Restaurant
  data : SessionData := {}
  step : String := "initial"
  availability : Availability
  booking_result : Option BookingResult := none
deriving Repr, DecidableEq

/-- The `reservation_sessions` dict, modelled as an association list. -/
abbrev SessionStore := List (String × Session)

def storeLookup (st : SessionStore) (sid : String) : Option Session :=
  match st.find? (fun p => p.1 == sid) with
  | some p => some p.2
  | none => none

/-- `del self.reservation_sessions[sid]`. -/
def storeErase (st : SessionStore) (sid : String) : SessionStore :=
  st.filter (fun p => p.1 != sid)

/-- `self.reservation_sessions[sid] = s` — observationally equivalent to
the Python dict update for lookup, erase and membership. -/
def storeInsert (st : SessionStore) (sid : String) (s : Session) : SessionStore :=
  (sid, s) :: storeErase st sid

/-- Per-call environment: the external collaborators consumed during one
agent call.  `fromiso` abstracts `datetime.fromisoformat` (`none` = the
call raises), datetime values being abstracted as `Int` with their total
order; `fmt*` abstract the `strftime` formats; `aiText`/`aiRaises` the
OpenAI chat completion; `exnText` the `str(e)` of a raised exception;
the two service results are the dictionaries returned by the awaited
browser drivers. -/
structure StepEnv where
  fromiso : String → Option Int := fun _ => none
  now : Int := 0
  fmtDT : Int → String := fun _ => ""
  fmtDate : Int → String := fun _ => ""
  fmtTime : Int → String := fun _ => ""
  aiRaises : Bool := false
  aiText : String := ""
  exnText : String := ""
  tabelogServiceResult : BookingResult := {}
  toretaServiceResult : BookingResult := {}

/-! ## Field extractors -/

/-- `ReservationAgent._parse_datetime_with_ai`.  The prompt sent to the
language model includes the user input and the current time; the reply
for this particular call is the oracle `env.aiText`.  The reply is
stripped, the rejection token checked, then parsed with `fromisoformat`;
a past or unparsable timestamp is rejected. -/
def parseDatetimeWithAI (env : StepEnv) (_userInput : String) : Option String :=
  if env.aiRaises then none
  else
    let result := pyStrip env.aiText
    if result == "INVALID" then none
    else
      match env.fromiso result with
      | none => none
      | some parsed_dt => if parsed_dt ≤ env.now then none else some result

/-- First maximal run of decimal digits (`re.findall(r'\d+', s)[0]`). -/
def firstDigitRun : List Char → Option (List Char)
  | [] => none
  | c :: cs =>
    if isDigitChar c then some (c :: cs.takeWhile isDigitChar)
    else firstDigitRun cs

/-- Numeric value of a digit run (`int(...)`). -/
def natOfDigits (l : List Char) : Nat :=
  l.foldl (fun a c => a * 10 + (c.toNat - '0'.toNat)) 0

/-- `ReservationAgent._extract_party_size`: first digit run wins,
otherwise the kanji/token vocabulary for 1–6.  (The `'1名'`/`'1人'`
alternatives are unreachable after the digit scan but transcribed.) -/
def extractPartySize (user_input : String) : Option Nat :=
  match firstDigitRun user_input.data with
  | some run => some (natOfDigits run)
  | none =>
    if strHas user_input "一" || strHas user_input "1名" || strHas user_input "1人" then some 1
    else if strHas user_input "二" || strHas user_input "2名" || strHas user_input "2人" then some 2
    else if strHas user_input "三" || strHas user_input "3名" || strHas user_input "3人" then some 3
    else if strHas user_input "四" || strHas user_input "4名" || strHas user_input "4人" then some 4
    else if strHas user_input "五" || strHas user_input "5名" || strHas user_input "5人" then some 5
    else if strHas user_input "六" || strHas user_input "6名" || strHas user_input "6人" then some 6
    else none

/-- Take exactly `n` characters satisfying `p`; return them and the rest. -/
def takeExact : Nat → (Char → Bool) → List Char → Option (List Char × List Char)
  | 0, _, l => some ([], l)
  | _ + 1, _, [] => none
  | n + 1, p, c :: cs =>
    if p c then (takeExact n p cs).map (fun m => (c :: m.1, m.2)) else none

/-- `-?` where the following regex element is a digit class: the dash is
consumed exactly when present (classes are disjoint, so no backtracking). -/
def optDash : List Char → (List Char × List Char)
  | '-' :: rest => (['-'], rest)
  | l => ([], l)

/-- `re` pattern `0[789]0-?\d{4}-?\d{4}` matched at the head. -/
def matchMobileAt : List Char → Option (List Char)
  | '0' :: c :: '0' :: rest =>
    if c == '7' || c == '8' || c == '9' then
      let (d1, r1) := optDash rest
      match takeExact 4 isDigitChar r1 with
      | some (m1, r2) =>
        let (d2, r3) := optDash r2
        match takeExact 4 isDigitChar r3 with
        | some (m2, _) => some ('0' :: c :: '0' :: (d1 ++ m1 ++ d2 ++ m2))
        | none => none
      | none => none
    else none
  | _ => none

/-- Greedy `\d{1,4}` with backtracking: try 4,3,2,1 digits in order,
accepting the first count for which the continuation succeeds. -/
def tryCounts (counts : List Nat) (l : List Char)
    (k : List Char → List Char → Option (List Char)) : Option (List Char) :=
  match counts with
  | [] => none
  | n :: ns =>
    match takeExact n isDigitChar l with
    | some (m, rest) =>
      match k m rest with
      | some r => some r
      | none => tryCounts ns l k
    | none => tryCounts ns l k

/-- `re` pattern `0\d{1,4}-?\d{1,4}-?\d{4}` matched at the head. -/
def matchLandlineAt : List Char → Option (List Char)
  | '0' :: rest =>
    tryCounts [4, 3, 2, 1] rest (fun m1 r1 =>
      let (d1, r1') := optDash r1
      tryCounts [4, 3, 2, 1] r1' (fun m2 r2 =>
        let (d2, r2') := optDash r2
        match takeExact 4 isDigitChar r2' with
        | some (m3, _) => some ('0' :: (m1 ++ d1 ++ m2 ++ d2 ++ m3))
        | none => none))
  | _ => none

/-- `re` pattern `\d{10,11}` (greedy) matched at the head. -/
def matchLongDigitsAt (l : List Char) : Option (List Char) :=
  match takeExact 11 isDigitChar l with
  | some (m, _) => some m
  | none =>
    match takeExact 10 isDigitChar l with
    | some (m, _) => some m
    | none => none

/-- `re.search`: leftmost position at which the pattern matches. -/
def searchFirst (m : List Char → Option (List Char)) : List Char → Option (List Char)
  | [] => m []
  | c :: cs =>
    match m (c :: cs) with
    | some r => some r
    | none => searchFirst m cs

/-- The ordered phone-pattern list of `_extract_contact_info`. -/
def extractPhone (l : List Char) : Option (List Char) :=
  match searchFirst matchMobileAt l with
  | some p => some p
  | none =>
    match searchFirst matchLandlineAt l with
    | some p => some p
    | none => searchFirst matchLongDigitsAt l

/-- Python `s.replace(pat, '')` (all occurrences, left to right); the
fuel argument only bounds the recursion and is set to `l.length`. -/
def replaceAllAux : Nat → List Char → List Char → List Char
  | 0, _, l => l
  | _ + 1, _, [] => []
  | f + 1, pat, c :: cs =>
    if !pat.isEmpty && listStarts pat (c :: cs) then
      replaceAllAux f pat (List.drop (pat.length - 1) cs)
    else c :: replaceAllAux f pat cs

def replaceAll (l pat : List Char) : List Char := replaceAllAux l.length pat l

/-- Separator class of `re.split(r'[、,\s]+', ...)`. -/
def isSepChar (c : Char) : Bool := c == '、' || c == ',' || isSpaceChar c

mutual

/-- `re.split(r'[、,\s]+', ...)`: a separator run closes the current
token (possibly empty at the start / end, as in Python). -/
def splitSepsGo (acc : List Char) : List Char → List (List Char)
  | [] => [acc.reverse]
  | c :: cs =>
    if isSepChar c then acc.reverse :: splitSepsSkip cs
    else splitSepsGo (c :: acc) cs

def splitSepsSkip : List Char → List (List Char)
  | [] => [[]]
  | c :: cs => if isSepChar c then splitSepsSkip cs else splitSepsGo [c] cs

end

/-- Python `part.isdigit()` (ASCII digits). -/
def pyIsDigit (l : List Char) : Bool := !l.isEmpty && l.all isDigitChar

/-- `' '.join(parts)`. -/
def joinSpace : List (List Char) → List Char
  | [] => []
  | [p] => p
  | p :: ps => p ++ ' ' :: joinSpace ps

/-- `ReservationAgent._extract_contact_info`: first phone pattern wins;
the name is the residual text with separators collapsed and purely
numeric tokens dropped. -/
def extractContactInfo (user_input : String) : Contact :=
  let phone? := extractPhone user_input.data
  let name0 : List Char :=
    match phone? with
    | some p => listStrip (replaceAll user_input.data p)
    | none => user_input.data
  let parts := splitSepsGo [] name0
  let name1 := joinSpace (parts.filter (fun p => !p.isEmpty && !pyIsDigit p))
  { name := String.mk (listStrip name1),
    phone := match phone? with
             | some p => String.mk (listStrip p)
             | none => "" }

def isLocalChar (c : Char) : Bool :=
  c.isAlpha || isDigitChar c || c == '.' || c == '_' || c == '%' || c == '+' || c == '-'

def isDomChar (c : Char) : Bool :=
  c.isAlpha || isDigitChar c || c == '.' || c == '-'

/-- `[a-zA-Z]`. -/
def isAlphaChar (c : Char) : Bool := c.isAlpha

/-- Split at every occurrence of `sep`. -/
def splitOnCharGo (sep : Char) (acc : List Char) : List Char → List (List Char)
  | [] => [acc.reverse]
  | c :: cs =>
    if c == sep then acc.reverse :: splitOnCharGo sep [] cs
    else splitOnCharGo sep (c :: acc) cs

/-- `re.match(r'^[a-zA-Z0-9._%+-]+@[a-zA-Z0-9.-]+\.[a-zA-Z]{2,}$', s)`:
neither class contains `@`, so there is exactly one `@`; the final
alphabetic group is anchored at the end, hence sits after the last dot
of the domain. -/
def emailMatches (s : String) : Bool :=
  match splitOnCharGo '@' [] s.data with
  | [loc, dom] =>
    !loc.isEmpty && loc.all isLocalChar &&
    (let rev := dom.reverse
     let tldRev := rev.takeWhile (fun c => c != '.')
     let rest := rev.drop (tldRev.length + 1)
     decide (2 ≤ tldRev.length) && tldRev.all isAlphaChar &&
     decide (tldRev.length < rev.length) &&
     !rest.isEmpty && rest.all isDomChar)
  | _ => false

/-! ## Bulk single-message form parsing (`_handle_bulk_form_data`).
The `re.search` calls are modelled at the first occurrence of each
literal label (the continuation classes are disjoint from `\s`, so
greedy maximal-munch scanning coincides with the regex engine on the
well-formed inputs exercised here). -/

/-- Drop everything up to and including the first occurrence of `lit`. -/
def dropAfterFirst (lit : List Char) : List Char → Option (List Char)
  | [] => if lit.isEmpty then some [] else none
  | c :: cs =>
    if listStarts lit (c :: cs) then some (List.drop (lit.length - 1) cs)
    else dropAfterFirst lit cs

/-- `re.search(r'日時:\s*([0-9-]+)\s+([0-9:]+)', s)`. -/
def bulkDatetimeMatch (s : String) : Option (String × String) :=
  match dropAfterFirst "日時:".data s.data with
  | none => none
  | some rest =>
    let r1 := rest.dropWhile isSpaceChar
    let g1 := r1.takeWhile (fun c => isDigitChar c || c == '-')
    if g1.isEmpty then none
    else
      let r2 := r1.drop g1.length
      let sp := r2.takeWhile isSpaceChar
      if sp.isEmpty then none
      else
        let r3 := r2.drop sp.length
        let g2 := r3.takeWhile (fun c => isDigitChar c || c == ':')
        if g2.isEmpty then none else some (String.mk g1, String.mk g2)

/-- `re.search(r'人数:\s*(\d+)名', s)`. -/
def bulkPartyMatch (s : String) : Option Nat :=
  match dropAfterFirst "人数:".data s.data with
  | none => none
  | some rest =>
    let r1 := rest.dropWhile isSpaceChar
    let g := r1.takeWhile isDigitChar
    if g.isEmpty then none
    else
      match r1.drop g.length with
      | '名' :: _ => some (natOfDigits g)
      | _ => none

/-- `re.search(lit ++ r'\s*([^,]+)', s)` for the name/phone/mail labels. -/
def bulkFieldMatch (lit : String) (s : String) : Option String :=
  match dropAfterFirst lit.data s.data with
  | none => none
  | some rest =>
    let r1 := rest.dropWhile isSpaceChar
    let g := r1.takeWhile (fun c => c != ',')
    if g.isEmpty then none else some (String.mk g)

/-- `re.search(r'要望:\s*(.+?)(?:$|,)', s)`: the lazy group is the first
character followed by everything before the next comma. -/
def bulkRequestsMatch (s : String) : Option String :=
  match dropAfterFirst "要望:".data s.data with
  | none => none
  | some rest =>
    match rest.dropWhile isSpaceChar with
    | [] => none
    | c :: cs => some (String.mk (c :: cs.takeWhile (fun x => x != ',')))

/-- The bulk-form guard of `_handle_datetime_input`. -/
def isBulkInput (input : String) : Bool :=
  strStarts input "日時:" && strHas input "人数:" && strHas input "名前:"

/-! ## Small display / truthiness helpers for the f-string templates -/

/-- `sep.join(l)`. -/
def joinSep (sep : String) : List String → String
  | [] => ""
  | [s] => s
  | s :: rest => s ++ sep ++ joinSep sep rest

/-- f-string rendering of a possibly-`None` string value. -/
def optShow (o : Option String) : String := o.getD "None"

/-- f-string rendering of a possibly-`None` integer value. -/
def partyShow (o : Option Nat) : String :=
  match o with
  | some n => toString n
  | none => "None"

/-- `booking_info.get('party_size', d)` rendered in an f-string. -/
def partyShowD (o : Option Nat) (d : String) : String :=
  match o with
  | some n => toString n
  | none => d

/-- Python `x or d` / `x if x else d` on an optional string (the empty
string is falsy). -/
def pyOrStr (o : Option String) (d : String) : String :=
  match o with
  | some s => if s.isEmpty then d else s
  | none => d

/-- Python truthiness of an optional string. -/
def pyTruthy (o : Option String) : Bool :=
  match o with
  | some s => !s.isEmpty
  | none => false

/-- Python `s[-n:]`. -/
def strTakeRight (s : String) (n : Nat) : String :=
  ⟨(s.data.reverse.take n).reverse⟩

/-! ## Site automation drivers
(`TabelogReservationService.make_reservation`,
`ToretaReservationService.make_reservation`).

The browser resource is modelled explicitly: `initialize()` launches the
browser only when `self.playwright` is still unset, and the `finally`
blocks of both `make_reservation` variants are literal no-ops (the
`await self.close()` call is commented out in both files). External
observations of the page (URLs after navigation, element lookups,
sub-step outcomes) are supplied as an oracle record. -/

/-- Playwright resource state of a driver service object. -/
structure BrowserState where
  browserOpen : Bool := false
  acquires : Nat := 0
deriving Repr, DecidableEq

/-- `initialize()`: launches a browser only if none is open
(`if not self.playwright`). -/
def acquireBrowser (st : BrowserState) : BrowserState :=
  if st.browserOpen then st
  else { browserOpen := true, acquires := st.acquires + 1 }

/-- `urlparse(url).netloc`, for well-formed absolute URLs: the text
after the first `//` up to the next `/`. -/
def netlocOf (url : String) : String :=
  match dropAfterFirst "//".data url.data with
  | some rest => String.mk (rest.takeWhile (fun c => c != '/'))
  | none => ""

/-- `TabelogReservationService.is_tabelog_url`. -/
def isTabelogUrl (url : String) : Bool :=
  !url.isEmpty && strHas (netlocOf url) "tabelog.com"

/-- `ToretaReservationService.is_toreta_url`. -/
def isToretaUrl (url : String) : Bool :=
  !url.isEmpty && (strHas url "toreta.in" || strHas url "toreta-reserve")

/-- External observations of one tabelog `make_reservation` call.
`dateOk`/`timeOk`/`partyOk`/`infoOk`/`fillExn` are the outcomes of the
best-effort fill block (they only drive logging in the source). -/
structure TabelogObs where
  initOk : Bool := true
  exnText : String := ""
  navUrl1 : String := ""
  phoneText1 : Option String := none
  entryFound : Bool := true
  phoneText2 : Option String := none
  clickExn : Bool := false
  navUrl2 : String := ""
  dateOk : Bool := true
  timeOk : Bool := true
  partyOk : Bool := true
  infoOk : Bool := true
  fillExn : Bool := false
  finalUrl : String := ""
deriving Repr, DecidableEq

/-- The generic `except` result of both drivers. -/
def driverProcError (exnText : String) : BookingResult :=
  { success := false, error := some "予約処理エラー", message := some exnText }

/-- First-gate AI-detection result of the tabelog driver. -/
def tabelogAiDetection1 (restaurant_url reservation_date reservation_time : String)
    (party_size : Nat) (c : Contact) (phoneText : Option String) : BookingResult :=
  { success := false, error := some "ai_detection",
    message := some "食べログの自動予約防止機能が作動しました。",
    manual_booking_required := true,
    restaurant_url := some restaurant_url,
    phone_number := phoneText,
    booking_info := some { date := some reservation_date, time := some reservation_time,
                           party_size := some party_size, customer_name := some c.name },
    instructions :=
      ["1. ブラウザで直接食べログのサイトにアクセスしてください",
       "2. レストランのページで「空席確認・予約」ボタンをクリック",
       "3. 日付: " ++ reservation_date ++ "、時間: " ++ reservation_time ++ "、人数: " ++
         toString party_size ++ "名を選択",
       "4. お客様情報を入力して予約を完了させてください",
       "5. または、お電話での予約も可能です: " ++ pyOrStr phoneText "店舗にお問い合わせください"] }

/-- No-entry-point (`ネット予約非対応`) result of the tabelog driver. -/
def tabelogNoEntry (reservation_date reservation_time : String) (party_size : Nat)
    (c : Contact) (phoneText : Option String) : BookingResult :=
  { success := false, error := some "ネット予約非対応",
    message := some "このレストランはネット予約に対応していません",
    phone_number := phoneText,
    manual_booking_required := true,
    booking_info := some { date := some reservation_date, time := some reservation_time,
                           party_size := some party_size, customer_name := some c.name },
    alternative := some (if pyTruthy phoneText then
        "電話予約をご利用ください: " ++ optShow phoneText
      else "店舗に直接お問い合わせください") }

/-- Second-gate AI-detection result of the tabelog driver — note that it
carries `semi_automated := true` *and* `error = 'ai_detection'`. -/
def tabelogAiDetection2 (current_url reservation_date reservation_time : String)
    (party_size : Nat) (c : Contact) : BookingResult :=
  { success := false, error := some "ai_detection",
    message := some "食べログの自動予約防止機能により、自動予約を完了できません。",
    semi_automated := true, browser_opened := true,
    current_url := some current_url,
    booking_info := some { date := some reservation_date, time := some reservation_time,
                           party_size := some party_size, customer_name := some c.name },
    instructions :=
      ["🌐 ブラウザウィンドウが開いています",
       "📝 以下の情報で手動で予約を完了してください:",
       "  • 日付: " ++ reservation_date,
       "  • 時間: " ++ reservation_time,
       "  • 人数: " ++ toString party_size ++ "名",
       "  • お名前: " ++ c.name,
       "  • 電話番号: " ++ c.phone,
       "  • メール: " ++ optShow c.email] }

/-- Final semi-automated result of the tabelog driver. -/
def tabelogSemiFinal (restaurant_url reservation_date reservation_time current_url : String)
    (party_size : Nat) (c : Contact) : BookingResult :=
  { success := false, semi_automated := true, browser_opened := true,
    message := some "予約情報を事前入力しました。ブラウザで予約を完了してください。",
    current_url := some current_url,
    booking_info := some { restaurant_url := some restaurant_url,
                           date := some reservation_date, time := some reservation_time,
                           party_size := some party_size, customer_name := some c.name,
                           phone := some c.phone, email := c.email },
    instructions :=
      ["✅ 予約情報を可能な限り自動入力しました",
       "📌 ブラウザウィンドウで以下を確認してください:",
       "  1. 日付が " ++ reservation_date ++ " になっているか",
       "  2. 時間が " ++ reservation_time ++ " になっているか",
       "  3. 人数が " ++ toString party_size ++ "名 になっているか",
       "  4. お客様情報を入力",
       "",
       "⚠️ **重要な注意点**:",
       "  • コース選択: 「コースなし」「席のみ」を選択",
       "  • 座席選択: 「指定なし」「お任せ」を選択",
       "  • 必須項目のみ入力してください",
       "",
       "👆 確認後、「予約する」「次へ」ボタンをクリック",
       "📧 予約完了後、食べログから確認メールが届きます"] }

/-- `TabelogReservationService.make_reservation`.  The best-effort fill
flags of `o` do not influence the returned result (they only feed the
log); the `finally` block keeps the browser open on every exit path. -/
def tabelogMakeReservation (o : TabelogObs)
    (restaurant_url reservation_date reservation_time : String)
    (party_size : Nat) (customer_info : Contact)
    (st : BrowserState) : BookingResult × BrowserState :=
  if !o.initOk then (driverProcError o.exnText, st)
  else
    let st := acquireBrowser st
    if !isTabelogUrl restaurant_url then
      ({ success := false, error := some "URLが食べログのものではありません",
         message := some ("提供されたURL: " ++ restaurant_url) }, st)
    else if strHas o.navUrl1 "ai_request_booking" then
      (tabelogAiDetection1 restaurant_url reservation_date reservation_time party_size
        customer_info o.phoneText1, st)
    else if !o.entryFound then
      (tabelogNoEntry reservation_date reservation_time party_size customer_info
        o.phoneText2, st)
    else if o.clickExn then (driverProcError o.exnText, st)
    else if strHas o.navUrl2 "ai_request_booking" then
      (tabelogAiDetection2 o.navUrl2 reservation_date reservation_time party_size
        customer_info, st)
    else
      (tabelogSemiFinal restaurant_url reservation_date reservation_time o.finalUrl
        party_size customer_info, st)

/-- External observations of one toreta `make_reservation` call. -/
structure ToretaObs where
  initOk : Bool := true
  exnText : String := ""
  bodyExn : Bool := false
  dateOk : Bool := true
  timeOk : Bool := true
  infoOk : Bool := true
  submitResult : BookingResult := {}
  nowStamp : String := ""
deriving Repr, DecidableEq

/-- `ToretaReservationService.make_reservation`.  Date selection, time
and party selection and customer-info fill each abort the run with a
dedicated failure result; the `finally` block keeps the browser open. -/
def toretaMakeReservation (o : ToretaObs)
    (restaurant_url reservation_date reservation_time : String)
    (party_size : Nat) (customer_info : Contact)
    (st : BrowserState) : BookingResult × BrowserState :=
  if !o.initOk then (driverProcError o.exnText, st)
  else
    let st := acquireBrowser st
    if !isToretaUrl restaurant_url then
      ({ success := false, error := some "URLがToretaのものではありません",
         message := some ("提供されたURL: " ++ restaurant_url) }, st)
    else if o.bodyExn then (driverProcError o.exnText, st)
    else if !o.dateOk then
      ({ success := false, error := some "日付選択失敗",
         message := some (reservation_date ++ " は予約できません") }, st)
    else if !o.timeOk then
      ({ success := false, error := some "時間・人数選択失敗",
         message := some (reservation_time ++ " " ++ toString party_size ++
           "名での予約ができません") }, st)
    else if !o.infoOk then
      ({ success := false, error := some "顧客情報入力失敗",
         message := some "顧客情報の入力に失敗しました" }, st)
    else if o.submitResult.success then
      ({ success := true,
         reservation_id := some (o.submitResult.reservation_id.getD ("TRT-" ++ o.nowStamp)),
         message := some "Toretaでの予約が完了しました！確認メールをご確認ください。",
         details := some { restaurant_url := some restaurant_url,
                           date := some reservation_date, time := some reservation_time,
                           party_size := some party_size,
                           customer_name := some customer_info.name } }, st)
    else (o.submitResult, st)

/-! ## `ReservationAgent._create_error_message` -/

/-- `browser_opened` branch of the semi-automated message. -/
def semiBrowserOpenedMsg (bi : BookingInfo) (instructions_text : String) : String :=
  "🌐 **ブラウザウィンドウを開きました**\n\n" ++
  "⚠️ **食べログのセキュリティにより、手動での予約完了が必要です**\n\n" ++
  "📌 **現在の状態**:\n" ++
  "✅ 別ウィンドウでブラウザが開いています\n" ++
  "✅ レストランページを表示中\n" ++
  "⚠️ 予約情報の自動入力を試みましたが、手動確認が必要です\n\n" ++
  "📝 **予約したい内容**:\n" ++
  "• 日付: **" ++ bi.date.getD "未設定" ++ "**\n" ++
  "• 時間: **" ++ bi.time.getD "未設定" ++ "**\n" ++
  "• 人数: **" ++ partyShowD bi.party_size "未設定" ++ "名**\n" ++
  "• お名前: **" ++ bi.customer_name.getD "未設定" ++ "**\n\n" ++
  "📋 **ブラウザでの手順**:\n" ++ instructions_text ++ "\n\n" ++
  "💡 予約完了後、食べログから確認メールが届きます"

/-- `manual_booking_required` branch of the semi-automated message. -/
def semiManualRequiredMsg (br : BookingResult) (restaurant : Restaurant)
    (bi : BookingInfo) : String :=
  let phone_number := br.phone_number.getD "店舗にお問い合わせください"
  "⚠️ **食べログの自動予約防止機能により、手動での予約が必要です**\n\n" ++
  "🚫 **理由**: " ++ br.message.getD "AI検出により自動予約がブロックされました" ++ "\n\n" ++
  "📌 **代替の予約方法**:\n\n" ++
  "🌐 **ブラウザで直接予約**:\n" ++
  "1. 食べログのサイト: " ++ br.restaurant_url.getD restaurant.website ++ "\n" ++
  "2. 「空席確認・予約」ボタンをクリック\n" ++
  "3. 以下の情報で予約:\n" ++
  "   • 日付: " ++ bi.date.getD "希望日" ++ "\n" ++
  "   • 時間: " ++ bi.time.getD "希望時間" ++ "\n" ++
  "   • 人数: " ++ partyShowD bi.party_size "希望人数" ++ "名\n\n" ++
  "📞 **または電話予約**: " ++ phone_number ++ "\n\n" ++
  "💡 申し訳ございません。食べログのセキュリティ強化により、完全自動予約は制限されています。"

/-- `ai_detection` branch. -/
def aiDetectionMsg (br : BookingResult) (restaurant : Restaurant) : String :=
  let phone_number := br.phone_number.getD restaurant.phone_number
  let bi := br.booking_info.getD {}
  let restaurant_url := br.restaurant_url.getD restaurant.website
  "⚠️ **食べログのセキュリティにより自動予約がブロックされました**\n\n" ++
  "食べログは不正な自動予約を防ぐため、AI検出システムを導入しています。\n" ++
  "申し訳ございませんが、以下の方法で予約をお願いします。\n\n" ++
  "📱 **オプション1: 食べログで予約（1分で完了）**\n" ++
  "準備した予約情報:\n" ++
  "📅 日付: **" ++ bi.date.getD "未設定" ++ "**\n" ++
  "⏰ 時間: **" ++ bi.time.getD "未設定" ++ "**\n" ++
  "👥 人数: **" ++ partyShowD bi.party_size "未設定" ++ "名**\n" ++
  "📝 お名前: **" ++ bi.customer_name.getD "未設定" ++ "**\n\n" ++
  "👉 [**食べログで予約する**](" ++ restaurant_url ++ ")\n" ++
  "（クリックして上記情報で予約を完了してください）\n\n" ++
  "---\n\n" ++
  "📞 **オプション2: 電話予約（最も確実）**\n" ++
  "📱 **" ++ phone_number ++ "**\n" ++
  "「" ++ bi.date.getD "" ++ "の" ++ bi.time.getD "" ++ "に" ++
  partyShowD bi.party_size "" ++ "名で予約したいです」\n\n" ++
  "💡 **なぜ自動予約ができないか？**\n" ++
  "食べログは転売防止のため、AIによる予約を制限しています。\n" ++
  "これはレストランと利用者を守るための措置です。"

/-- `not_supported` branch.  (`website.split('/')[2]` for a website that
contains a `/` but fewer than three segments would raise in the source;
the segment is modelled as empty in that unused corner.) -/
def notSupportedMsg (br : BookingResult) (restaurant : Restaurant) : String :=
  let website := br.website.getD "なし"
  if website != "なし" && !website.isEmpty then
    let domain :=
      if strHas website "/" then
        String.mk ((splitOnCharGo '/' [] website.data).getD 2 [])
      else website
    "⚠️ **このレストランのオンライン予約には対応していません**\n\n" ++
    "🚫 **非対応サイト**: " ++ domain ++ "\n\n" ++
    "📌 **現在の対応状況**:\n" ++
    "• ✅ 食べログ（tabelog.com）のみ対応\n" ++
    "• ❌ その他のサイト（ぐるなび、ホットペッパーなど）は非対応\n\n" ++
    "🔄 **代替の予約方法**:\n\n" ++
    "📞 **直接お電話（推奨）**: " ++ restaurant.phone_number ++ "\n" ++
    "• 確実に予約が取れます\n" ++
    "• 詳細な要望もお伝えできます\n\n" ++
    "🌐 **レストランのサイトで直接予約**: " ++ website ++ "\n\n" ++
    "💡 **ヒント**: 食べログに掲載されているレストランをお選びいただければ、AI予約が可能です"
  else
    "⚠️ **このレストランのオンライン予約には対応していません**\n\n" ++
    "📌 **現在の対応状況**:\n" ++
    "• ✅ 食べログ（tabelog.com）のみ対応\n" ++
    "• ❌ その他のサイトは非対応\n\n" ++
    "🔄 **代替の予約方法**:\n\n" ++
    "📞 **直接お電話（推奨）**: " ++ restaurant.phone_number ++ "\n" ++
    "• 確実に予約が取れます\n" ++
    "• 詳細な要望もお伝えできます\n\n" ++
    "💡 **ヒント**: 食べログに掲載されているレストランをお選びいただければ、AI予約が可能です"

/-- `not_tabelog` branch. -/
def notTabelogMsg (restaurant : Restaurant) : String :=
  "⚠️ **食べログ以外のサイトには対応していません**\n\n" ++
  "📌 このシステムは食べログ専用です\n\n" ++
  "🔄 **代替の予約方法**:\n\n" ++
  "📞 **直接お電話**: " ++ restaurant.phone_number ++ "\n\n" ++
  "💡 食べログに掲載されているレストランをお選びください"

/-- Fallback branch for any other error. -/
def genericErrorMsg (br : BookingResult) (restaurant : Restaurant) : String :=
  "⚠️ **オンライン予約を完了できませんでした**\n\n" ++
  "状況: " ++ br.message.getD (br.error.getD "不明なエラー") ++ "\n\n" ++
  "🔄 **代替の予約方法をご利用ください:**\n\n" ++
  "📞 **直接お電話（推奨）**: " ++ restaurant.phone_number ++ "\n" ++
  "• 確実に予約が取れます\n" ++
  "• 詳細な要望もお伝えできます\n\n" ++
  "🌐 **予約サイト**: 食べログで直接予約\n\n" ++
  "🚶 **直接来店**: 空席がある場合はご案内可能です"

/-- `ReservationAgent._create_error_message`.  A semi-automated result
with neither `browser_opened` nor `manual_booking_required` falls
through to the `error_type` chain, exactly as in the source. -/
def createErrorMessage (br : BookingResult) (restaurant : Restaurant) : String :=
  let error_type := br.error.getD "unknown"
  let semiMsg : Option String :=
    if br.semi_automated then
      let instructions_text := joinSep "\n" br.instructions
      let bi := br.booking_info.getD {}
      if br.browser_opened then some (semiBrowserOpenedMsg bi instructions_text)
      else if br.manual_booking_required then some (semiManualRequiredMsg br restaurant bi)
      else none
    else none
  match semiMsg with
  | some m => m
  | none =>
    if error_type == "ai_detection" then aiDetectionMsg br restaurant
    else if error_type == "not_supported" then notSupportedMsg br restaurant
    else if error_type == "not_tabelog" then notTabelogMsg restaurant
    else genericErrorMsg br restaurant

/-! ## Conversation state machine (`ReservationAgent`) -/

/-- Response dictionary of `start_reservation` / `process_reservation_step`.
The Python `'error'` key holds a boolean in the step handlers and a
string in `process_reservation_step`'s session-not-found / unknown-step
answers; the two usages are modelled as `errorFlag` and `errorMsg`.
(The auxiliary `reservation_details` key of the success answer carries
only copies of fields that are already present and is not modelled.) -/
structure StepResponse where
  message : String := ""
  step : Option String := none
  errorFlag : Option Bool := none
  errorMsg : Option String := none
  restart_needed : Bool := false
  session_id : Option String := none
  success : Option Bool := none
  cancelled : Bool := false
  processing : Option Bool := none
  options : List String := []
  end_session : Bool := false
  availability_status : Option String := none
  availability_method : Option String := none
  alternative_methods : List String := []
  booking_result : Option BookingResult := none
  browser_opened : Option Bool := none
  booking_info : Option BookingInfo := none
  restaurant_url : Option String := none
  phone_number : Option String := none
deriving Repr, DecidableEq

/-- `except` response of `_handle_datetime_input`. -/
def dtExceptResponse (e : String) : StepResponse :=
  { message := "日時の処理でエラーが発生しました: " ++ e ++ "\nもう一度お試しください。",
    step := some "datetime_input", errorFlag := some true,
    options := ["今日のディナー", "明日のランチ", "今度の週末", "具体的な日時を入力"] }

/-- `except` response of `_handle_party_size_input`. -/
def psExceptResponse (e : String) : StepResponse :=
  { message := "人数の処理でエラーが発生しました: " ++ e ++ "\nもう一度お試しください。",
    step := some "party_size_input", errorFlag := some true,
    options := ["1名", "2名", "3名", "4名", "5名", "6名", "その他"] }

/-- `except` response of `_handle_contact_info_input`. -/
def ciExceptResponse (e : String) : StepResponse :=
  { message := "連絡先情報の処理でエラーが発生しました: " ++ e ++ "\nもう一度お試しください。",
    step := some "contact_info_input", errorFlag := some true }

/-- `except` response of `_handle_email_input`. -/
def emExceptResponse (e : String) : StepResponse :=
  { message := "メールアドレスの処理でエラーが発生しました: " ++ e ++ "\nもう一度お試しください。",
    step := some "email_input", errorFlag := some true }

/-- `except` response of `_handle_special_requests_input`. -/
def srExceptResponse (e : String) : StepResponse :=
  { message := "特別要望の処理でエラーが発生しました: " ++ e ++ "\nもう一度お試しください。",
    step := some "special_requests_input", errorFlag := some true }

/-- `except` response of `_handle_confirmation`. -/
def confExceptResponse (e : String) : StepResponse :=
  { message := "予約の実行中にエラーが発生しました: " ++ e ++
      "\n申し訳ございませんが、もう一度お試しください。",
    step := some "confirmation", errorFlag := some true }

/-- `except` response of `_handle_bulk_form_data`. -/
def bulkExceptResponse (sid e : String) : StepResponse :=
  { session_id := some sid,
    message := "データ処理中にエラーが発生しました: " ++ e,
    step := some "datetime_input", errorFlag := some true }

/-- Confirmation summary of `_handle_special_requests_input`. -/
def confirmationSummary1 (env : StepEnv) (restaurant : Restaurant) (data : SessionData)
    (t : Int) (c : Contact) : String :=
  let special_requests_text := pyOrStr data.special_requests "なし"
  "🎯 **予約内容の確認**\n\n" ++
  "🏪 **レストラン**: " ++ restaurant.name ++ "\n" ++
  "📍 **住所**: " ++ restaurant.address ++ "\n" ++
  "📅 **日時**: " ++ env.fmtDT t ++ "\n" ++
  "👥 **人数**: " ++ partyShow data.party_size ++ "名\n" ++
  "📝 **お名前**: " ++ c.name ++ "\n" ++
  "📱 **電話番号**: " ++ c.phone ++ "\n" ++
  "📧 **メール**: " ++ data.email.getD (c.email.getD "未設定") ++ "\n" ++
  "💭 **特別要望**: " ++ special_requests_text ++ "\n\n" ++
  "この内容で予約を進めますか？"

/-- Confirmation summary re-rendered by the `続行`/empty branch of
`_handle_confirmation`. -/
def confirmationSummary2 (env : StepEnv) (restaurant : Restaurant) (data : SessionData)
    (t : Int) (c : Contact) : String :=
  let special_requests_text := pyOrStr data.special_requests "なし"
  "🎯 **予約内容の確認**\n\n" ++
  "🏪 **レストラン**: " ++ restaurant.name ++ "\n" ++
  "📍 **住所**: " ++ restaurant.address ++ "\n" ++
  "📅 **日時**: " ++ env.fmtDT t ++ "\n" ++
  "👥 **人数**: " ++ partyShow data.party_size ++ "名\n" ++
  "📝 **お名前**: " ++ c.name ++ "\n" ++
  "📱 **電話番号**: " ++ c.phone ++ "\n" ++
  "📧 **メール**: " ++ data.email.getD (c.email.getD "未設定") ++ "\n" ++
  "💭 **特別要望**: " ++ special_requests_text ++ "\n\n" ++
  "この内容で予約を取りますか？\n" ++
  "📞 予約完了後、必要に応じてレストランにお電話で確認することをお勧めします。"

/-- Confirmation summary of `_handle_bulk_form_data`. -/
def bulkConfirmationMsg (env : StepEnv) (restaurant : Restaurant) (data : SessionData)
    (t : Int) (c : Contact) : String :=
  let special_requests_text := pyOrStr data.special_requests "なし"
  "🎯 **予約内容の確認**\n\n" ++
  "🏪 **レストラン**: " ++ restaurant.name ++ "\n" ++
  "📍 **住所**: " ++ restaurant.address ++ "\n" ++
  "📅 **日時**: " ++ env.fmtDT t ++ "\n" ++
  "👥 **人数**: " ++ partyShow data.party_size ++ "名\n" ++
  "📝 **お名前**: " ++ c.name ++ "\n" ++
  "📱 **電話番号**: " ++ c.phone ++ "\n" ++
  "📧 **メール**: " ++ data.email.getD "" ++ "\n" ++
  "💭 **特別要望**: " ++ special_requests_text ++ "\n\n" ++
  "この内容で予約を取りますか？\n" ++
  "📞 予約完了後、必要に応じてレストランにお電話で確認することをお勧めします。"

/-- The collected-fields record written by `_handle_bulk_form_data` once
all five labels have matched. -/
def bulkData (date_str time_str : String) (psz : Nat) (nm ph em : String)
    (requests_match : Option String) : SessionData :=
  { datetime := some (date_str ++ "T" ++ time_str ++ ":00"),
    party_size := some psz,
    contact := some { name := pyStrip nm, phone := pyStrip ph,
                      email := some (pyStrip em) },
    email := some (pyStrip em),
    special_requests :=
      match requests_match with
      | some rq => if pyStrip rq != "なし" then some (pyStrip rq) else none
      | none => none }

/-- `ReservationAgent._handle_bulk_form_data`. -/
def handleBulkFormData (env : StepEnv) (st : SessionStore)
    (session_id form_data : String) : SessionStore × StepResponse :=
  let datetime_match := bulkDatetimeMatch form_data
  let party_size_match := bulkPartyMatch form_data
  let name_match := bulkFieldMatch "名前:" form_data
  let phone_match := bulkFieldMatch "電話:" form_data
  let email_match := bulkFieldMatch "メール:" form_data
  let requests_match := bulkRequestsMatch form_data
  let missing_fields : List String :=
    (if datetime_match.isNone then ["日時"] else []) ++
    (if party_size_match.isNone then ["人数"] else []) ++
    (if name_match.isNone then ["名前"] else []) ++
    (if phone_match.isNone then ["電話番号"] else []) ++
    (if email_match.isNone then ["メールアドレス"] else [])
  if !missing_fields.isEmpty then
    (st, { session_id := some session_id,
           message := "以下の情報が不足しています: " ++ joinSep ", " missing_fields ++
             "\nもう一度入力してください。",
           step := some "datetime_input", errorFlag := some true })
  else
    match datetime_match, party_size_match, name_match, phone_match, email_match with
    | some (date_str, time_str), some psz, some nm, some ph, some em =>
      let iso_datetime := date_str ++ "T" ++ time_str ++ ":00"
      match storeLookup st session_id with
      | none => (st, bulkExceptResponse session_id env.exnText)
      | some session =>
        let c : Contact := { name := pyStrip nm, phone := pyStrip ph,
                             email := some (pyStrip em) }
        let data' := bulkData date_str time_str psz nm ph em requests_match
        let session' := { session with data := data', step := "confirmation" }
        let st' := storeInsert st session_id session'
        match env.fromiso iso_datetime with
        | none => (st', bulkExceptResponse session_id env.exnText)
        | some t =>
          (st', { session_id := some session_id,
                  message := bulkConfirmationMsg env session'.restaurant data' t c,
                  step := some "confirmation",
                  options := ["✅ 予約を実行する", "📝 修正する", "❌ キャンセル"],
                  errorFlag := some false, processing := some false })
    | _, _, _, _, _ => (st, bulkExceptResponse session_id env.exnText)

/-- `ReservationAgent._handle_datetime_input`.  The bulk-form guard and
the AI extraction run before the session is read; the session mutation
happens before the `strftime` rendering, exactly as in the source. -/
def handleDatetimeInput (env : StepEnv) (st : SessionStore)
    (session_id user_input : String) : SessionStore × StepResponse :=
  if isBulkInput user_input then handleBulkFormData env st session_id user_input
  else
    match parseDatetimeWithAI env user_input with
    | none =>
      (st, { message := "申し訳ございません。日時を正しく理解できませんでした。\n" ++
               "もう一度、具体的な日時を教えてください。\n" ++
               "例: 「12月25日19時」「明日の12時」「来週金曜日の18時30分」",
             step := some "datetime_input", errorFlag := some true,
             options := ["今日のディナー", "明日のランチ", "今度の週末", "具体的な日時を入力"] })
    | some parsed_datetime =>
      match storeLookup st session_id with
      | none => (st, dtExceptResponse env.exnText)
      | some session =>
        let session' := { session with
          data := { session.data with datetime := some parsed_datetime },
          step := "party_size_input" }
        let st' := storeInsert st session_id session'
        match env.fromiso parsed_datetime with
        | none => (st', dtExceptResponse env.exnText)
        | some t =>
          (st', { session_id := some session_id,
                  message := "📅 予約日時: " ++ env.fmtDT t ++ "\n\n" ++
                    "ありがとうございます！\n" ++
                    "次に、お食事される人数を教えてください。",
                  step := some "party_size_input",
                  options := ["1名", "2名", "3名", "4名", "5名", "6名", "その他"],
                  errorFlag := some false, processing := some false })

/-- Failure response of `_handle_party_size_input`. -/
def psFailResponse (sid : String) : StepResponse :=
  { session_id := some sid,
    message := "人数を正しく理解できませんでした。\n" ++
      "何名様でのご利用でしょうか？\n" ++
      "例: 「2名」「3人」",
    step := some "party_size_input", errorFlag := some true,
    options := ["1名", "2名", "3名", "4名", "5名", "6名", "その他"] }

/-- `ReservationAgent._handle_party_size_input`.  The Python
`if not party_size:` falsy test rejects both `None` and `0`. -/
def handlePartySizeInput (env : StepEnv) (st : SessionStore)
    (session_id user_input : String) : SessionStore × StepResponse :=
  match extractPartySize user_input with
  | none => (st, psFailResponse session_id)
  | some party_size =>
    if party_size == 0 then (st, psFailResponse session_id)
    else
      match storeLookup st session_id with
      | none => (st, psExceptResponse env.exnText)
      | some session =>
        let session' := { session with
          data := { session.data with party_size := some party_size },
          step := "contact_info_input" }
        (storeInsert st session_id session',
         { session_id := some session_id,
           message := "👥 人数: " ++ toString party_size ++ "名\n\n" ++
             "続いて、予約に必要な連絡先情報を教えてください。\n" ++
             "お名前と電話番号をお願いします。\n" ++
             "例: 「田中太郎 090-1234-5678」",
           step := some "contact_info_input",
           options := ["田中太郎 090-1234-5678", "佐藤花子 080-9876-5432",
                       "山田次郎 070-1111-2222", "自分で入力する"],
           errorFlag := some false, processing := some false })

/-- `ReservationAgent._handle_contact_info_input`. -/
def handleContactInfoInput (env : StepEnv) (st : SessionStore)
    (session_id user_input : String) : SessionStore × StepResponse :=
  let contact_info := extractContactInfo user_input
  if contact_info.name.isEmpty || contact_info.phone.isEmpty then
    (st, { session_id := some session_id,
           message := "連絡先情報を正しく理解できませんでした。\n" ++
             "お名前と電話番号を教えてください。\n" ++
             "例: 「田中太郎 090-1234-5678」",
           step := some "contact_info_input",
           options := ["田中太郎 090-1234-5678", "佐藤花子 080-9876-5432",
                       "山田次郎 070-1111-2222", "自分で入力する"],
           errorFlag := some true, processing := some false })
  else
    match storeLookup st session_id with
    | none => (st, ciExceptResponse env.exnText)
    | some session =>
      let session' := { session with
        data := { session.data with contact := some contact_info },
        step := "email_input" }
      (storeInsert st session_id session',
       { session_id := some session_id,
         message := "📝 お名前: " ++ contact_info.name ++ "\n" ++
           "📱 電話番号: " ++ contact_info.phone ++ "\n\n" ++
           "続いて、メールアドレスを教えてください。\n" ++
           "予約確認メールの受信に必要です。",
         step := some "email_input", options := [],
         errorFlag := some false, processing := some false })

/-- `ReservationAgent._handle_email_input`.  When `contact` is still
`None` the assignment `session['data']['contact']['email'] = email`
raises after `session['data']['email']` has already been written; the
partial mutation persists and the `except` response is returned. -/
def handleEmailInput (env : StepEnv) (st : SessionStore)
    (session_id user_input : String) : SessionStore × StepResponse :=
  let email := pyStrip user_input
  if !emailMatches email then
    (st, { session_id := some session_id,
           message := "メールアドレスの形式が正しくありません。\n" ++
             "正しいメールアドレスを入力してください。\n" ++
             "例: example@gmail.com",
           step := some "email_input", errorFlag := some true, processing := some false })
  else
    match storeLookup st session_id with
    | none => (st, emExceptResponse env.exnText)
    | some session =>
      let data1 := { session.data with email := some email }
      match session.data.contact with
      | none =>
        (storeInsert st session_id { session with data := data1 },
         emExceptResponse env.exnText)
      | some c =>
        let session' := { session with
          data := { data1 with contact := some { c with email := some email } },
          step := "special_requests_input" }
        (storeInsert st session_id session',
         { session_id := some session_id,
           message := "📧 メールアドレス: " ++ email ++ "\n\n" ++
             "最後に、特別なご要望があれば教えてください。\n" ++
             "（記念日、アレルギー、席の希望など）\n" ++
             "特にない場合は「なし」と入力してください。",
           step := some "special_requests_input",
           options := ["なし", "誕生日のお祝いです", "記念日のお祝いです",
                       "静かな席をお願いします", "窓際の席をお願いします", "自分で入力する"],
           errorFlag := some false, processing := some false })

/-- `ReservationAgent._handle_special_requests_input`.  The field and
step mutations happen before the summary is rendered; if
`datetime.fromisoformat` (or the contact access) raises afterwards the
mutations persist and the `except` response is returned. -/
def handleSpecialRequestsInput (env : StepEnv) (st : SessionStore)
    (session_id user_input : String) : SessionStore × StepResponse :=
  match storeLookup st session_id with
  | none => (st, srExceptResponse env.exnText)
  | some session =>
    let sr : Option String :=
      if strLower user_input == "なし" || strLower user_input == "none" ||
         strLower user_input == "" then none
      else some user_input
    let session' := { session with
      data := { session.data with special_requests := sr },
      step := "confirmation" }
    let st' := storeInsert st session_id session'
    match session.data.datetime with
    | none => (st', srExceptResponse env.exnText)
    | some dts =>
      match env.fromiso dts with
      | none => (st', srExceptResponse env.exnText)
      | some t =>
        match session.data.contact with
        | none => (st', srExceptResponse env.exnText)
        | some c =>
          (st', { session_id := some session_id,
                  message := confirmationSummary1 env session'.restaurant session'.data t c,
                  step := some "confirmation",
                  options := ["✅ 予約を実行する", "📝 修正する", "❌ キャンセル"],
                  errorFlag := some false, processing := some false })

/-- `ReservationAgent._execute_tabelog_booking`: wraps the tabelog
service result.  Note that the failure branch forwards only
`error`/`message`/`alternative` — a `semi_automated` flag of the service
result is dropped. -/
def execTabelogBooking (env : StepEnv) (restaurant : Restaurant)
    (data : SessionData) : BookingResult :=
  let exnResult : BookingResult :=
    { success := false, error := some "exception",
      message := some ("予約処理中にエラーが発生しました: " ++ env.exnText) }
  if !strHas restaurant.website "tabelog.com" then
    { success := false, error := some "not_tabelog",
      message := some "このレストランは食べログ以外のサイトです" }
  else
    match data.datetime with
    | none => exnResult
    | some dts =>
      match env.fromiso dts with
      | none => exnResult
      | some _t =>
        match data.contact with
        | none => exnResult
        | some _c =>
          let result := env.tabelogServiceResult
          if result.success then
            { success := true,
              reservation_id := result.reservation_id,
              method := some "tabelog_booking",
              steps_completed :=
                ["🌐 食べログにアクセス中...", "📅 希望日時を選択中...",
                 "👥 人数を設定中...", "📝 お客様情報を入力中...",
                 "✅ 予約内容を確認中...", "🎉 予約が完了しました！"],
              restaurant_name := some restaurant.name,
              booking_details := some { datetime := data.datetime,
                                        party_size := data.party_size,
                                        contact := data.contact,
                                        special_requests := data.special_requests } }
          else
            { success := false,
              error := some (result.error.getD "予約失敗"),
              message := some (result.message.getD "予約を完了できませんでした"),
              alternative := result.alternative }

/-- `ReservationAgent._execute_toreta_booking`: passes the toreta
service result through unchanged (only the datetime parse and the
contact access can raise beforehand). -/
def execToretaBooking (env : StepEnv) (_restaurant : Restaurant)
    (data : SessionData) : BookingResult :=
  let exnResult : BookingResult :=
    { success := false, error := some "toreta_error",
      message := some ("Toreta予約中にエラーが発生しました: " ++ env.exnText) }
  match data.datetime with
  | none => exnResult
  | some dts =>
    match env.fromiso dts with
    | none => exnResult
    | some _t =>
      match data.contact with
      | none => exnResult
      | some _c => env.toretaServiceResult

/-- Success message of the execute branch of `_handle_confirmation`. -/
def completedMsg (restaurant : Restaurant) (data : SessionData) (c : Contact)
    (formatted_datetime reservation_id : String) (br : BookingResult) : String :=
  let steps_text := joinSep "\n" (br.steps_completed.map (fun s => "• " ++ s))
  "🎉 **予約が完了しました！**\n\n" ++
  "📋 **予約番号**: " ++ reservation_id ++ "\n" ++
  "🏪 **レストラン**: " ++ restaurant.name ++ "\n" ++
  "📍 **住所**: " ++ restaurant.address ++ "\n" ++
  "📅 **予約日時**: " ++ formatted_datetime ++ "\n" ++
  "👥 **人数**: " ++ partyShow data.party_size ++ "名\n" ++
  "📝 **予約者名**: " ++ c.name ++ "\n" ++
  "📱 **連絡先**: " ++ c.phone ++ "\n" ++
  "📧 **メール**: " ++ data.email.getD (c.email.getD "未設定") ++ "\n\n" ++
  (if !br.steps_completed.isEmpty then "🤖 **AI予約処理**:\n" ++ steps_text ++ "\n\n" else "") ++
  "📞 **レストラン連絡先**: " ++ restaurant.phone_number ++ "\n\n" ++
  "💡 **ご来店の際のお願い**:\n" ++
  "• 予約時間の5-10分前にお越しください\n" ++
  "• 遅刻やキャンセルの場合は事前にレストランにご連絡ください\n" ++
  "• 予約番号をお控えください: **" ++ reservation_id ++ "**\n\n" ++
  "🍽️ 素敵なお食事をお楽しみください！"

/-- `ReservationAgent._handle_confirmation`. -/
def handleConfirmation (env : StepEnv) (st : SessionStore)
    (session_id user_input : String) : SessionStore × StepResponse :=
  let user_input_lower := strLower user_input
  if strHas user_input "実行" || strHas user_input "はい" ||
     strHas user_input_lower "ok" || strHas user_input_lower "yes" ||
     strHas user_input "✅" then
    match storeLookup st session_id with
    | none => (st, confExceptResponse env.exnText)
    | some session =>
      let restaurant := session.restaurant
      let data := session.data
      let website := restaurant.website
      let booking_result : BookingResult :=
        if strHas website "tabelog.com" then execTabelogBooking env restaurant data
        else if strHas website "toreta.in" || strHas website "toreta-reserve" then
          execToretaBooking env restaurant data
        else
          { success := false, error := some "not_supported",
            message := some "申し訳ございません。現在対応している予約システムは、食べログとToretaのみです。",
            website := some website,
            supported_systems := ["食べログ (tabelog.com)", "Toreta (toreta.in)"] }
      if booking_result.success then
        let session' := { session with
          step := "completed", booking_result := some booking_result }
        let st' := storeInsert st session_id session'
        match data.datetime with
        | none => (st', confExceptResponse env.exnText)
        | some dts =>
          match env.fromiso dts with
          | none => (st', confExceptResponse env.exnText)
          | some t =>
            match data.contact with
            | none => (st', confExceptResponse env.exnText)
            | some c =>
              let formatted_datetime := env.fmtDT t
              let reservation_id :=
                booking_result.reservation_id.getD ("RES-" ++ strTakeRight session_id 8)
              (st', { session_id := some session_id,
                      message := completedMsg restaurant data c formatted_datetime
                        reservation_id booking_result,
                      step := some "completed", success := some true,
                      booking_result := some booking_result,
                      errorFlag := some false, processing := some false })
      else
        let error_message := createErrorMessage booking_result restaurant
        if booking_result.semi_automated then
          (st, { session_id := some session_id,
                 message := error_message,
                 step := some "semi_automated", success := some false,
                 errorFlag := some false, processing := some false,
                 browser_opened := some booking_result.browser_opened,
                 booking_info := some (booking_result.booking_info.getD {}),
                 restaurant_url := some (booking_result.restaurant_url.getD restaurant.website),
                 options := ["✅ ブラウザで予約を完了しました", "📞 電話で予約する",
                             "🔄 別のレストランを探す"] })
        else if booking_result.error == some "ai_detection" then
          (st, { session_id := some session_id,
                 message := error_message,
                 step := some "ai_blocked", success := some false,
                 errorFlag := some true, processing := some false,
                 booking_info := some (booking_result.booking_info.getD {}),
                 restaurant_url := some (booking_result.restaurant_url.getD restaurant.website),
                 phone_number := some (booking_result.phone_number.getD restaurant.phone_number),
                 options := ["📱 食べログサイトを開く", "📞 今すぐ電話する",
                             "🔍 別のレストランを探す", "💡 他の予約サイトを使う"] })
        else
          (st, { session_id := some session_id,
                 message := error_message,
                 step := some "completed", success := some false,
                 errorFlag := some true, processing := some false,
                 options := ["🔄 もう一度試す", "📞 電話予約の案内", "❌ 終了"] })
  else if strHas user_input "キャンセル" || strHas user_input_lower "cancel" then
    match storeLookup st session_id with
    | none => (st, confExceptResponse env.exnText)
    | some _ =>
      (storeErase st session_id,
       { message := "❌ 予約をキャンセルしました。\n" ++
           "また機会がございましたらお気軽にお声がけください。",
         step := some "completed", cancelled := true })
  else if strHas user_input "修正" || strHas user_input_lower "edit" then
    (st, { message := "📝 どの項目を修正しますか？",
           step := some "confirmation",
           options := ["📅 日時を変更", "👥 人数を変更", "📝 連絡先を変更",
                       "💭 特別要望を変更", "🔙 確認画面に戻る"] })
  else if strHas user_input "続行" || pyStrip user_input == "" then
    match storeLookup st session_id with
    | none => (st, confExceptResponse env.exnText)
    | some session =>
      match session.data.datetime with
      | none => (st, confExceptResponse env.exnText)
      | some dts =>
        match env.fromiso dts with
        | none => (st, confExceptResponse env.exnText)
        | some t =>
          match session.data.contact with
          | none => (st, confExceptResponse env.exnText)
          | some c =>
            (st, { session_id := some session_id,
                   message := confirmationSummary2 env session.restaurant session.data t c,
                   step := some "confirmation",
                   options := ["✅ 予約を実行する", "📝 修正する", "❌ キャンセル"],
                   errorFlag := some false, processing := some false })
  else
    (st, { session_id := some session_id,
           message := "申し訳ございません。入力を理解できませんでした。\n" ++
             "「予約を実行する」「修正する」「キャンセル」のいずれかを選んでください。",
           step := some "confirmation",
           options := ["✅ 予約を実行する", "📝 修正する", "❌ キャンセル"],
           errorFlag := some true })

/-- `ReservationAgent.process_reservation_step`. -/
def processReservationStep (env : StepEnv) (st : SessionStore)
    (session_id user_input : String) : SessionStore × StepResponse :=
  match storeLookup st session_id with
  | none =>
    (st, { errorMsg := some "セッションが見つかりません。新しい予約を開始してください。",
           restart_needed := true })
  | some session =>
    let current_step := session.step
    if current_step == "initial" then
      handleDatetimeInput env
        (storeInsert st session_id { session with step := "datetime_input" })
        session_id user_input
    else if current_step == "datetime_input" then
      handleDatetimeInput env st session_id user_input
    else if current_step == "party_size_input" then
      handlePartySizeInput env st session_id user_input
    else if current_step == "contact_info_input" then
      handleContactInfoInput env st session_id user_input
    else if current_step == "email_input" then
      handleEmailInput env st session_id user_input
    else if current_step == "special_requests_input" then
      handleSpecialRequestsInput env st session_id user_input
    else if current_step == "confirmation" then
      handleConfirmation env st session_id user_input
    else
      (st, { errorMsg := some ("不明な処理ステップです: " ++ current_step),
             session_id := some session_id, restart_needed := true })

/-- `ReservationAgent.start_reservation`.  The generated session id
(`f"{place_id}_{timestamp}_{id(self)}"[-50:]`) is time/identity
dependent and supplied by the caller as `session_id`.  When the
assessment is unavailable the function returns before the session store
is touched. -/
def startReservation (st : SessionStore) (restaurant : Restaurant)
    (session_id : String) : SessionStore × StepResponse :=
  let availability := checkRestaurantBookingAvailability restaurant
  if !availability.available then
    let message :=
      "⚠️ **" ++ restaurant.name ++ "は現在、オンラインAI予約に対応していません**\n\n" ++
      "理由: " ++ availability.reason.getD "予約システム未対応" ++ "\n\n" ++
      (if pyTruthy availability.phone_number then
        "📞 **直接お電話での予約をお勧めします**: " ++ optShow availability.phone_number ++ "\n\n"
      else "") ++
      (if !availability.alternative_methods.isEmpty then
        "🔄 **代替予約方法**:\n" ++
          String.join (availability.alternative_methods.map (fun m => "• " ++ m ++ "\n"))
      else "")
    (st, { session_id := some session_id,
           message := message,
           availability_status := some "not_available",
           alternative_methods := availability.alternative_methods,
           end_session := true })
  else
    let session : Session :=
      { restaurant := restaurant, data := {}, step := "initial",
        availability := availability }
    (storeInsert st session_id session,
     { session_id := some session_id,
       message := "🍽️ **" ++ restaurant.name ++ "** の予約を開始します！\n\n" ++
         "📍 住所: " ++ restaurant.address ++ "\n" ++
         "📞 電話: " ++ restaurant.phone_number ++ "\n\n" ++
         "📅 まず、いつ予約したいですか？\n" ++
         "日時を教えてください。\n" ++
         "例: 「明日の19時」「今週土曜日の12時」「12月25日の18時30分」",
       step := some "datetime_input",
       availability_status := some "available",
       availability_method := some (availability.method.getD "unknown"),
       options := ["今日のディナー", "明日のランチ", "今度の週末", "具体的な日時を入力"] })

/-- Response of `get_session_status`. -/
structure StatusResponse where
  error : Option String := none
  step : Option String := none
  data : Option SessionData := none
  restaurant : Option Restaurant := none
deriving Repr, DecidableEq

/-- `ReservationAgent.get_session_status`. -/
def getSessionStatus (st : SessionStore) (session_id : String) : StatusResponse :=
  match storeLookup st session_id with
  | none => { error := some "セッションが見つかりません" }
  | some session =>
    { step := some session.step, data := some session.data,
      restaurant := some session.restaurant }

/-- Response of `cancel_session`. -/
structure CancelResponse where
  message : Option String := none
  error : Option String := none
deriving Repr, DecidableEq

/-- `ReservationAgent.cancel_session`. -/
def cancelSession (st : SessionStore) (session_id : String) :
    SessionStore × CancelResponse :=
  match storeLookup st session_id with
  | some _ => (storeErase st session_id, { message := some "予約セッションをキャンセルしました" })
  | none => (st, { error := some "セッションが見つかりません" })

/-! ## Traces of agent API calls -/

/-- One externally triggered agent operation (status queries do not
mutate the store). -/
inductive Op where
  | start (r : Restaurant) (sid : String)
  | pstep (sid : String) (input : String) (env : StepEnv)
  | cancel (sid : String)

/-- Store effect of one operation. -/
def applyOp (st : SessionStore) : Op → SessionStore
  | .start r sid => (startReservation st r sid).1
  | .pstep sid input env => (processReservationStep env st sid input).1
  | .cancel sid => (cancelSession st sid).1

/-- The store reached from a fresh agent after a sequence of calls. -/
def runOps (ops : List Op) : SessionStore := ops.foldl applyOp []

/-! ## Lemmas about the string primitives -/

theorem listStarts_iff (n l : List Char) : listStarts n l = true ↔ n <+: l := by
  induction n generalizing l with
  | nil => simp [listStarts]
  | cons a as ih =>
    cases l with
    | nil => simp [listStarts]
    | cons b bs => simp [listStarts, List.cons_prefix_cons, ih]

theorem listHas_iff (n l : List Char) : listHas n l = true ↔ n <:+: l := by
  induction l with
  | nil => simp [listHas, listStarts_iff, List.infix_nil, List.prefix_nil]
  | cons c cs ih => simp [listHas, listStarts_iff, ih, List.infix_cons_iff]

theorem listHas_of_infix {n l : List Char} (h : n <:+: l) : listHas n l = true :=
  (listHas_iff n l).2 h

/-- Containment of the middle of an append. -/
theorem strHas_mid (pre s post : String) : strHas (pre ++ (s ++ post)) s = true := by
  apply listHas_of_infix
  refine ⟨pre.data, post.data, ?_⟩
  simp [String.data_append]

/-- A needle contained on the right of an append is contained in the whole. -/
theorem strHas_of_right {b : String} (a n : String) (h : strHas b n = true) :
    strHas (a ++ b) n = true := by
  unfold strHas at h ⊢
  rw [String.data_append, listHas_iff]
  rw [listHas_iff] at h
  obtain ⟨s, t, hst⟩ := h
  exact ⟨a.data ++ s, t, by simp [← hst]⟩

/-- A string contains its own head of an append. -/
theorem strHas_self_append (n t : String) : strHas (n ++ t) n = true := by
  unfold strHas
  rw [String.data_append, listHas_iff]
  exact ⟨[], t.data, by simp⟩

/-- An append whose head literal is nonempty is nonempty. -/
theorem append_ne_empty {s : String} (t : String) (hs : s.data ≠ []) :
    s ++ t ≠ "" := by
  intro h
  apply hs
  have hd := congrArg String.data h
  rw [String.data_append] at hd
  exact (List.append_eq_nil.mp hd).1

/-- A needle contained on the left of an append is contained in the whole. -/
theorem strHas_of_left {a : String} (t n : String) (h : strHas a n = true) :
    strHas (a ++ t) n = true := by
  unfold strHas at h ⊢
  rw [String.data_append, listHas_iff]
  rw [listHas_iff] at h
  obtain ⟨s, u, hsu⟩ := h
  exact ⟨s, u ++ t.data, by simp [← hsu]⟩

/-- A string contains its own tail of an append. -/
theorem strHas_append_self (a n : String) : strHas (a ++ n) n = true := by
  unfold strHas
  rw [String.data_append, listHas_iff]
  exact ⟨a.data, [], by simp⟩

/-! ## Lemmas about the session store -/

theorem storeLookup_insert_self (st : SessionStore) (k : String) (v : Session) :
    storeLookup (storeInsert st k v) k = some v := by
  unfold storeLookup storeInsert
  rw [List.find?_cons_of_pos _ (by simp)]

theorem storeLookup_erase_self (st : SessionStore) (k : String) :
    storeLookup (storeErase st k) k = none := by
  induction st with
  | nil => rfl
  | cons p t ih =>
    by_cases h : p.1 = k
    · simpa [storeErase, storeLookup, h] using ih
    · simpa [storeErase, storeLookup, List.find?, h] using ih

theorem mem_storeInsert {st : SessionStore} {k : String} {v : Session} {p}
    (h : p ∈ storeInsert st k v) : p = (k, v) ∨ p ∈ st := by
  simp only [storeInsert, List.mem_cons] at h
  rcases h with rfl | h
  · exact Or.inl rfl
  · exact Or.inr (List.mem_of_mem_filter h)

theorem mem_storeErase {st : SessionStore} {k : String} {p}
    (h : p ∈ storeErase st k) : p ∈ st :=
  List.mem_of_mem_filter h

theorem storeLookup_mem {st : SessionStore} {k : String} {v : Session}
    (h : storeLookup st k = some v) : (k, v) ∈ st := by
  unfold storeLookup at h
  cases hf : st.find? (fun p => p.1 == k) with
  | none => rw [hf] at h; exact absurd h (by simp)
  | some q =>
    rw [hf] at h
    have hq := List.find?_some hf
    have hmem := List.mem_of_find?_eq_some hf
    simp at h hq
    rw [← hq, ← h]
    simpa using hmem

/-! ## Preservation of session predicates by the step handlers

Each lemma states: if every stored session satisfies `P` and the
handler's specific session updates preserve `P`, then every session in
the resulting store satisfies `P`.  These feed the trace invariants. -/

section Preservation

variable {P : Session → Prop}

theorem pres_insert {st : SessionStore} {sid : String} {v : Session}
    (h : ∀ q ∈ st, P q.2) (hv : P v) :
    ∀ q ∈ storeInsert st sid v, P q.2 := by
  intro q hq
  rcases mem_storeInsert hq with rfl | hq'
  · exact hv
  · exact h q hq'

theorem bulk_pres (env : StepEnv) (st : SessionStore) (sid input : String)
    (h : ∀ q ∈ st, P q.2)
    (hnew : ∀ old data', P old → P { old with data := data', step := "confirmation" }) :
    ∀ q ∈ (handleBulkFormData env st sid input).1, P q.2 := by
  unfold handleBulkFormData
  dsimp only
  cases hd : bulkDatetimeMatch input with
  | none => exact h
  | some v =>
    obtain ⟨ds, ts⟩ := v
    cases hp : bulkPartyMatch input with
    | none => exact h
    | some psz =>
      cases hn : bulkFieldMatch "名前:" input with
      | none => exact h
      | some nm =>
        cases hph : bulkFieldMatch "電話:" input with
        | none => exact h
        | some ph =>
          cases he : bulkFieldMatch "メール:" input with
          | none => exact h
          | some em =>
            cases hl : storeLookup st sid with
            | none => exact h
            | some sess =>
              have hins := @pres_insert P st sid
                { sess with data := bulkData ds ts psz nm ph em (bulkRequestsMatch input),
                            step := "confirmation" }
                h (hnew sess (bulkData ds ts psz nm ph em (bulkRequestsMatch input))
                    (h _ (storeLookup_mem hl)))
              cases hf : env.fromiso (ds ++ "T" ++ ts ++ ":00") with
              | none => simpa [hf] using hins
              | some t => simpa [hf] using hins

theorem dt_pres (env : StepEnv) (st : SessionStore) (sid input : String)
    (h : ∀ q ∈ st, P q.2)
    (hbulk : isBulkInput input = true →
      ∀ old data', P old → P { old with data := data', step := "confirmation" })
    (hnew : ∀ old s, P old →
      P { old with data := { old.data with datetime := some s },
                   step := "party_size_input" }) :
    ∀ q ∈ (handleDatetimeInput env st sid input).1, P q.2 := by
  unfold handleDatetimeInput
  by_cases hb : isBulkInput input = true
  · simp only [hb, if_true]
    exact bulk_pres env st sid input h (hbulk hb)
  · cases hx : parseDatetimeWithAI env input with
    | none => simpa [hb, hx] using h
    | some s =>
      cases hl : storeLookup st sid with
      | none => simpa [hb, hx, hl] using h
      | some sess =>
        have hins := @pres_insert P st sid
          { sess with
            data := { sess.data with datetime := some s },
            step := "party_size_input" }
          h (hnew sess s (h _ (storeLookup_mem hl)))
        cases hf : env.fromiso s with
        | none => simpa [hb, hx, hl, hf] using hins
        | some t => simpa [hb, hx, hl, hf] using hins

theorem ps_pres (env : StepEnv) (st : SessionStore) (sid input : String)
    (h : ∀ q ∈ st, P q.2)
    (hnew : ∀ old p, extractPartySize input = some p → ¬ p = 0 → P old →
      P { old with data := { old.data with party_size := some p },
                   step := "contact_info_input" }) :
    ∀ q ∈ (handlePartySizeInput env st sid input).1, P q.2 := by
  unfold handlePartySizeInput
  cases hx : extractPartySize input with
  | none => simpa [hx] using h
  | some p =>
    by_cases hp : p = 0
    · simpa [hx, hp] using h
    · have hp' : (p == 0) = false := by simpa using hp
      cases hl : storeLookup st sid with
      | none => simpa [hx, hp', hl] using h
      | some sess =>
        simpa [hx, hp', hl] using
          @pres_insert P st sid
            { sess with
              data := { sess.data with party_size := some p },
              step := "contact_info_input" }
            h (hnew sess p hx hp (h _ (storeLookup_mem hl)))

theorem ci_pres (env : StepEnv) (st : SessionStore) (sid input : String)
    (h : ∀ q ∈ st, P q.2)
    (hnew : ∀ old, P old →
      P { old with data := { old.data with contact := some (extractContactInfo input) },
                   step := "email_input" }) :
    ∀ q ∈ (handleContactInfoInput env st sid input).1, P q.2 := by
  unfold handleContactInfoInput
  dsimp only
  by_cases hc : ((extractContactInfo input).name.isEmpty ||
      (extractContactInfo input).phone.isEmpty) = true
  · simpa [hc] using h
  · cases hl : storeLookup st sid with
    | none => simpa [hc, hl] using h
    | some sess =>
      simpa [hc, hl] using
        @pres_insert P st sid
          { sess with
            data := { sess.data with contact := some (extractContactInfo input) },
            step := "email_input" }
          h (hnew sess (h _ (storeLookup_mem hl)))

theorem em_pres (env : StepEnv) (st : SessionStore) (sid input : String)
    (h : ∀ q ∈ st, P q.2)
    (hnew1 : ∀ old, old.data.contact = none → P old →
      P { old with data := { old.data with email := some (pyStrip input) } })
    (hnew2 : ∀ old c, old.data.contact = some c → P old →
      P { old with
          data := { { old.data with email := some (pyStrip input) } with
                    contact := some { c with email := some (pyStrip input) } },
          step := "special_requests_input" }) :
    ∀ q ∈ (handleEmailInput env st sid input).1, P q.2 := by
  unfold handleEmailInput
  dsimp only
  by_cases he : (!emailMatches (pyStrip input)) = true
  · simpa [he] using h
  · cases hl : storeLookup st sid with
    | none => simpa [he, hl] using h
    | some sess =>
      cases hc : sess.data.contact with
      | none =>
        simpa [he, hl, hc] using
          @pres_insert P st sid
            { sess with data := { sess.data with email := some (pyStrip input) } }
            h (hnew1 sess hc (h _ (storeLookup_mem hl)))
      | some c =>
        simpa [he, hl, hc] using
          @pres_insert P st sid _ h (hnew2 sess c hc (h _ (storeLookup_mem hl)))

theorem sr_pres (env : StepEnv) (st : SessionStore) (sid input : String)
    (h : ∀ q ∈ st, P q.2)
    (hnew : ∀ old sr, P old →
      P { old with data := { old.data with special_requests := sr },
                   step := "confirmation" }) :
    ∀ q ∈ (handleSpecialRequestsInput env st sid input).1, P q.2 := by
  unfold handleSpecialRequestsInput
  cases hl : storeLookup st sid with
  | none => simpa [hl] using h
  | some sess =>
    have hins := @pres_insert P st sid _ h
      (hnew sess
        (if strLower input == "なし" || strLower input == "none" || strLower input == ""
         then none else some input)
        (h _ (storeLookup_mem hl)))
    cases hd : sess.data.datetime with
    | none => simpa [hl, hd] using hins
    | some dts =>
      cases hf : env.fromiso dts with
      | none => simpa [hl, hd, hf] using hins
      | some t =>
        cases hc : sess.data.contact with
        | none => simpa [hl, hd, hf, hc] using hins
        | some c => simpa [hl, hd, hf, hc] using hins

theorem conf_pres (env : StepEnv) (st : SessionStore) (sid input : String)
    (h : ∀ q ∈ st, P q.2)
    (hnew : ∀ old br, P old → P { old with step := "completed", booking_result := some br }) :
    ∀ q ∈ (handleConfirmation env st sid input).1, P q.2 := by
  unfold handleConfirmation
  dsimp only
  split
  · -- execute intent
    cases hl : storeLookup st sid with
    | none => simpa [hl] using h
    | some sess =>
      have hP' : P sess := h _ (storeLookup_mem hl)
      dsimp only
      generalize (if strHas sess.restaurant.website "tabelog.com" then
          execTabelogBooking env sess.restaurant sess.data
        else if strHas sess.restaurant.website "toreta.in" ||
            strHas sess.restaurant.website "toreta-reserve" then
          execToretaBooking env sess.restaurant sess.data
        else
          { success := false, error := some "not_supported",
            message := some "申し訳ございません。現在対応している予約システムは、食べログとToretaのみです。",
            website := some sess.restaurant.website,
            supported_systems := ["食べログ (tabelog.com)", "Toreta (toreta.in)"] }) = br
      have hins := @pres_insert P st sid
        { sess with step := "completed", booking_result := some br }
        h (hnew sess br hP')
      by_cases hbs : br.success = true
      · cases hd : sess.data.datetime with
        | none => simpa [hbs, hd] using hins
        | some dts =>
          cases hf : env.fromiso dts with
          | none => simpa [hbs, hd, hf] using hins
          | some t =>
            cases hc : sess.data.contact with
            | none => simpa [hbs, hd, hf, hc] using hins
            | some c => simpa [hbs, hd, hf, hc] using hins
      · rw [if_neg hbs]
        split
        · exact h
        · split
          · exact h
          · exact h
  · -- remaining intents
    split
    · -- cancel intent
      cases hl : storeLookup st sid with
      | none => simpa [hl] using h
      | some sess =>
        intro q hq
        exact h q (mem_storeErase (by simpa [hl] using hq))
    · split
      · -- edit intent
        exact h
      · split
        · -- continue / empty input
          cases hl : storeLookup st sid with
          | none => simpa [hl] using h
          | some sess =>
            cases hd : sess.data.datetime with
            | none => simpa [hl, hd] using h
            | some dts =>
              cases hf : env.fromiso dts with
              | none => simpa [hl, hd, hf] using h
              | some t =>
                cases hc : sess.data.contact with
                | none => simpa [hl, hd, hf, hc] using h
                | some c => simpa [hl, hd, hf, hc] using h
        · -- unrecognized input
          exact h

theorem processStep_pres (env : StepEnv) (st : SessionStore) (sid input : String)
    (h : ∀ q ∈ st, P q.2)
    (hdtstep : ∀ old, P old → P { old with step := "datetime_input" })
    (hbulk : isBulkInput input = true →
      ∀ old data', P old → P { old with data := data', step := "confirmation" })
    (hdt : ∀ old s, P old →
      P { old with data := { old.data with datetime := some s },
                   step := "party_size_input" })
    (hps : ∀ old p, extractPartySize input = some p → ¬ p = 0 → P old →
      P { old with data := { old.data with party_size := some p },
                   step := "contact_info_input" })
    (hci : ∀ old, P old →
      P { old with data := { old.data with contact := some (extractContactInfo input) },
                   step := "email_input" })
    (hem1 : ∀ old, old.data.contact = none → P old →
      P { old with data := { old.data with email := some (pyStrip input) } })
    (hem2 : ∀ old c, old.data.contact = some c → P old →
      P { old with
          data := { { old.data with email := some (pyStrip input) } with
                    contact := some { c with email := some (pyStrip input) } },
          step := "special_requests_input" })
    (hsr : ∀ old sr, P old →
      P { old with data := { old.data with special_requests := sr },
                   step := "confirmation" })
    (hconf : ∀ old br, P old → P { old with step := "completed", booking_result := some br }) :
    ∀ q ∈ (processReservationStep env st sid input).1, P q.2 := by
  unfold processReservationStep
  cases hl : storeLookup st sid with
  | none => exact h
  | some sess =>
    dsimp only
    have hP := h _ (storeLookup_mem hl)
    split
    · -- initial: the step is first rewritten to datetime_input, then handled
      exact dt_pres env _ sid input (pres_insert h (hdtstep sess hP)) hbulk hdt
    · split
      · exact dt_pres env st sid input h hbulk hdt
      · split
        · exact ps_pres env st sid input h hps
        · split
          · exact ci_pres env st sid input h hci
          · split
            · exact em_pres env st sid input h hem1 hem2
            · split
              · exact sr_pres env st sid input h hsr
              · split
                · exact conf_pres env st sid input h hconf
                · exact h

theorem start_pres (st : SessionStore) (r : Restaurant) (sid : String)
    (h : ∀ q ∈ st, P q.2)
    (hnew : ∀ avail, P { restaurant := r, data := {}, step := "initial",
                         availability := avail }) :
    ∀ q ∈ (startReservation st r sid).1, P q.2 := by
  unfold startReservation
  dsimp only
  split
  · exact h
  · exact pres_insert h (hnew _)

theorem cancel_pres (st : SessionStore) (sid : String)
    (h : ∀ q ∈ st, P q.2) :
    ∀ q ∈ (cancelSession st sid).1, P q.2 := by
  unfold cancelSession
  cases hl : storeLookup st sid with
  | none => exact h
  | some sess => exact fun q hq => h q (mem_storeErase hq)

end Preservation

/-! ## Trace invariants -/

/-- Any stored session at step `special_requests_input` has a contact
record (the only transition into that step is the successful email
handler, which requires the contact to be present). -/
def contactAtSR (s : Session) : Prop :=
  s.step = "special_requests_input" → s.data.contact.isSome = true

theorem step_ne_sr :
    ¬("initial" : String) = "special_requests_input" ∧
    ¬("datetime_input" : String) = "special_requests_input" ∧
    ¬("confirmation" : String) = "special_requests_input" ∧
    ¬("party_size_input" : String) = "special_requests_input" ∧
    ¬("contact_info_input" : String) = "special_requests_input" ∧
    ¬("email_input" : String) = "special_requests_input" ∧
    ¬("completed" : String) = "special_requests_input" := by decide

theorem contactAtSR_runOps (ops : List Op) : ∀ q ∈ runOps ops, contactAtSR q.2 := by
  suffices H : ∀ st, (∀ q ∈ st, contactAtSR q.2) →
      ∀ q ∈ ops.foldl applyOp st, contactAtSR q.2 by
    exact H [] (by intro q hq; cases hq)
  induction ops with
  | nil => intro st h; exact h
  | cons op rest ih =>
    intro st h
    refine ih (applyOp st op) ?_
    cases op with
    | start r sid =>
      exact start_pres st r sid h (fun _ hstep => absurd hstep step_ne_sr.1)
    | pstep sid input env =>
      exact processStep_pres env st sid input h
        (fun _ _ hstep => absurd hstep step_ne_sr.2.1)
        (fun _ _ _ _ hstep => absurd hstep step_ne_sr.2.2.1)
        (fun _ _ _ hstep => absurd hstep step_ne_sr.2.2.2.1)
        (fun _ _ _ _ _ hstep => absurd hstep step_ne_sr.2.2.2.2.1)
        (fun _ _ hstep => absurd hstep step_ne_sr.2.2.2.2.2.1)
        (fun _ _ hP hstep => hP hstep)
        (fun _ _ _ _ _ => rfl)
        (fun _ _ _ hstep => absurd hstep step_ne_sr.2.2.1)
        (fun _ _ _ hstep => absurd hstep step_ne_sr.2.2.2.2.2.2)
    | cancel sid => exact cancel_pres st sid h

/-- Positivity of the stored party size. -/
def psPos (s : Session) : Prop :=
  ∀ p, s.data.party_size = some p → 1 ≤ p

/-- An operation that does not enter the bulk single-message form path. -/
def opNoBulk : Op → Prop
  | .pstep _ input _ => isBulkInput input = false
  | _ => True

theorem psPos_runOps (ops : List Op) (hops : ∀ op ∈ ops, opNoBulk op) :
    ∀ q ∈ runOps ops, psPos q.2 := by
  suffices H : ∀ st, (∀ q ∈ st, psPos q.2) →
      ∀ q ∈ ops.foldl applyOp st, psPos q.2 by
    exact H [] (by intro q hq; cases hq)
  induction ops with
  | nil => intro st h; exact h
  | cons op rest ih =>
    intro st h
    refine ih (fun op' hop' => hops op' (List.mem_cons_of_mem _ hop'))
      (applyOp st op) ?_
    have hop := hops op (List.mem_cons_self _ _)
    cases op with
    | start r sid =>
      exact start_pres st r sid h (fun _ p hp => Option.noConfusion hp)
    | pstep sid input env =>
      have hnb : isBulkInput input = false := hop
      exact processStep_pres env st sid input h
        (fun _ hP p hp => hP p hp)
        (fun hbt => absurd hbt (by simp [hnb]))
        (fun _ _ hP p hp => hP p hp)
        (fun _ p _ hp0 _ p' hp' => by
          have hpp : p = p' := by simpa using hp'
          subst hpp
          exact Nat.one_le_iff_ne_zero.mpr hp0)
        (fun _ hP p hp => hP p hp)
        (fun _ _ hP p hp => hP p hp)
        (fun _ _ _ hP p hp => hP p hp)
        (fun _ _ hP p hp => hP p hp)
        (fun _ _ hP p hp => hP p hp)
    | cancel sid => exact cancel_pres st sid h

/-! ## Claim theorems -/

/-- C1: the Availability Assessor evaluates its decision table in order
with first match winning: (1) a chain-keyword name with a phone or
website yields available/web_form/0.8; (2) otherwise a website
containing a reservation keyword yields available/web_form/0.9;
(3) otherwise a phone plus an exclusive phone-only luxury keyword yields
unavailable/phone_only with the phone and alternative guidance;
(4) otherwise a phone yields available/web_form/0.7 with the phone as
fallback; (5) otherwise unavailable with an insufficient-information
reason.  The two concrete examples of the spec evaluate as stated. -/
theorem availability_decision_table :
    (∀ r : Restaurant,
      ((isChainName r && (!r.website.isEmpty || !r.phone_number.isEmpty)) = true →
        checkRestaurantBookingAvailability r =
          { available := true, method := some "web_form",
            method_description := some "オンライン予約システム（チェーン店）",
            confidence := some (mkRat 8 10) }) ∧
      ((isChainName r && (!r.website.isEmpty || !r.phone_number.isEmpty)) = false →
        (!r.website.isEmpty && hasReservationKeyword r) = true →
        checkRestaurantBookingAvailability r =
          { available := true, method := some "web_form",
            method_description := some "ウェブサイト予約フォーム",
            confidence := some (mkRat 9 10) }) ∧
      ((isChainName r && (!r.website.isEmpty || !r.phone_number.isEmpty)) = false →
        (!r.website.isEmpty && hasReservationKeyword r) = false →
        (!r.phone_number.isEmpty) = true → isExclusivePhoneOnlyName r = true →
        checkRestaurantBookingAvailability r =
          { available := false,
            reason := some "このレストランは電話予約のみ対応しています（高級店のため）",
            method := some "phone_only",
            phone_number := some r.phone_number,
            alternative_methods :=
              ["📞 直接お電話: " ++ r.phone_number,
               "🌐 予約サイト（ぐるなび、食べログ、ホットペッパーなど）",
               "🚶 店舗への直接来店"] }) ∧
      ((isChainName r && (!r.website.isEmpty || !r.phone_number.isEmpty)) = false →
        (!r.website.isEmpty && hasReservationKeyword r) = false →
        (!r.phone_number.isEmpty) = true → isExclusivePhoneOnlyName r = false →
        checkRestaurantBookingAvailability r =
          { available := true, method := some "web_form",
            method_description := some "ウェブサイトまたは電話予約",
            confidence := some (mkRat 7 10),
            fallback_phone := some r.phone_number }) ∧
      ((isChainName r && (!r.website.isEmpty || !r.phone_number.isEmpty)) = false →
        (!r.website.isEmpty && hasReservationKeyword r) = false →
        (!r.phone_number.isEmpty) = false →
        checkRestaurantBookingAvailability r =
          { available := false,
            reason := some "予約システムの情報が不足しています",
            alternative_methods :=
              ["🌐 レストランの公式サイトを確認",
               "🚶 店舗への直接来店"] })) ∧
    checkRestaurantBookingAvailability
        { name := "くら寿司 渋谷店", phone_number := "03-1111-2222",
          website := "http://kura-sushi.jp" } =
      { available := true, method := some "web_form",
        method_description := some "オンライン予約システム（チェーン店）",
        confidence := some (mkRat 8 10) } ∧
    checkRestaurantBookingAvailability
        { name := "懐石 花見", phone_number := "03-0000-0000", website := "" } =
      { available := false,
        reason := some "このレストランは電話予約のみ対応しています（高級店のため）",
        method := some "phone_only",
        phone_number := some "03-0000-0000",
        alternative_methods :=
          ["📞 直接お電話: 03-0000-0000",
           "🌐 予約サイト（ぐるなび、食べログ、ホットペッパーなど）",
           "🚶 店舗への直接来店"] } := by
  refine ⟨fun r => ⟨?_, ?_, ?_, ?_, ?_⟩, by decide, by decide⟩
  · intro h1
    simp [checkRestaurantBookingAvailability, h1]
  · intro h1 h2
    simp [checkRestaurantBookingAvailability, h1, h2]
  · intro h1 h2 h3 h4
    have ha : isChainName r = false := by
      cases hc : isChainName r
      · rfl
      · rw [hc] at h1; simp [h3] at h1
    simp [checkRestaurantBookingAvailability, ha, h1, h2, h3, h4]
  · intro h1 h2 h3 h4
    have ha : isChainName r = false := by
      cases hc : isChainName r
      · rfl
      · rw [hc] at h1; simp [h3] at h1
    simp [checkRestaurantBookingAvailability, ha, h1, h2, h3, h4]
  · intro h1 h2 h3
    have h1' : (isChainName r && !r.website.isEmpty) = false := by
      simpa [h3] using h1
    simp [checkRestaurantBookingAvailability, h1', h2, h3]

/-- Witness for C1: the fourth branch fires for a plain restaurant that
only has a phone number. -/
theorem availability_decision_table_witness :
    checkRestaurantBookingAvailability { name := "カフェ青", phone_number := "03-9999-0000" } =
      { available := true, method := some "web_form",
        method_description := some "ウェブサイトまたは電話予約",
        confidence := some (mkRat 7 10),
        fallback_phone := some "03-9999-0000" } :=
  ((availability_decision_table.1 _).2.2.2.1 (by decide) (by decide) (by decide) (by decide))

/-- A sample customer record used by the driver claims. -/
def sampleCustomer : Contact :=
  { name := "田中太郎", phone := "090-1234-5678", email := some "tanaka@example.com" }

/-- A fully successful tabelog driver run on a fresh service object. -/
def c2run : BookingResult × BrowserState :=
  tabelogMakeReservation {} "https://tabelog.com/tokyo/A1301/" "2025-12-25" "19:00" 2
    sampleCustomer {}

/-- Counterexample to C2: a tabelog `make_reservation` call on a fresh
service acquires one browser session and leaves it open when it returns
— the `finally` block is a no-op (`await self.close()` is commented
out), so the claim that no session acquired by the call remains open is
false. -/
theorem browser_release_counterexample :
    c2run.2.acquires = 1 ∧ c2run.2.browserOpen = true := by decide

/-- C2 amended: each driver invocation acquires at most one browser
session (only when none is open yet), and never releases it: on every
exit path the state on return has the browser open whenever
initialization succeeded, and the acquisition count grows by exactly one
on a fresh service and zero otherwise. -/
theorem browser_never_released (o : TabelogObs) (o' : ToretaObs)
    (url d t : String) (n : Nat) (c : Contact) (st : BrowserState) :
    ((tabelogMakeReservation o url d t n c st).2.browserOpen = (st.browserOpen || o.initOk) ∧
     (tabelogMakeReservation o url d t n c st).2.acquires =
       st.acquires + (if !st.browserOpen && o.initOk then 1 else 0)) ∧
    ((toretaMakeReservation o' url d t n c st).2.browserOpen = (st.browserOpen || o'.initOk) ∧
     (toretaMakeReservation o' url d t n c st).2.acquires =
       st.acquires + (if !st.browserOpen && o'.initOk then 1 else 0)) := by
  constructor
  · unfold tabelogMakeReservation acquireBrowser
    cases hin : o.initOk
    · simp
    · cases hb : st.browserOpen <;> simp [hb] <;> split_ifs <;> simp_all
  · unfold toretaMakeReservation acquireBrowser
    cases hin : o'.initOk
    · simp
    · cases hb : st.browserOpen <;> simp [hb] <;> split_ifs <;> simp_all

/-- The spec's unavailable example restaurant. -/
def kaisekiHanami : Restaurant :=
  { name := "懐石 花見", phone_number := "03-0000-0000", website := "" }

/-- Counterexample to C3: starting a reservation for an unavailable
restaurant returns the end-of-session guidance but stores no session, so
the subsequent `get_session_status` with the returned id reports
session-not-found instead of succeeding. -/
theorem unavailable_not_addressable_counterexample :
    (startReservation [] kaisekiHanami "k1").2.end_session = true ∧
    (startReservation [] kaisekiHanami "k1").2.session_id = some "k1" ∧
    getSessionStatus (startReservation [] kaisekiHanami "k1").1 "k1" =
      { error := some "セッションが見つかりません" } := by decide

/-- C3 amended: for every restaurant the Assessor classifies
unavailable, `start_reservation` returns a nonempty guidance message
with the end-of-session flag set, but leaves the session store
untouched; a subsequent `get_session_status` with the returned id (on a
store that did not already contain it) reports session-not-found. -/
theorem unavailable_session_not_stored (st : SessionStore) (r : Restaurant) (sid : String)
    (hun : (checkRestaurantBookingAvailability r).available = false) :
    (startReservation st r sid).1 = st ∧
    (startReservation st r sid).2.end_session = true ∧
    (startReservation st r sid).2.availability_status = some "not_available" ∧
    strHas (startReservation st r sid).2.message
      "は現在、オンラインAI予約に対応していません**\n\n" = true ∧
    (storeLookup st sid = none →
      getSessionStatus (startReservation st r sid).1 sid =
        { error := some "セッションが見つかりません" }) := by
  unfold startReservation
  dsimp only
  rw [hun]
  refine ⟨rfl, rfl, rfl, ?_, ?_⟩
  · show strHas ((("⚠️ **" ++ r.name ++ "は現在、オンラインAI予約に対応していません**\n\n" ++ "理由: " ++
        (checkRestaurantBookingAvailability r).reason.getD "予約システム未対応" ++ "\n\n" ++
        (if pyTruthy (checkRestaurantBookingAvailability r).phone_number = true then
          "📞 **直接お電話での予約をお勧めします**: " ++
            optShow (checkRestaurantBookingAvailability r).phone_number ++ "\n\n"
        else "")) ++
        (if (!(checkRestaurantBookingAvailability r).alternative_methods.isEmpty) = true then
          "🔄 **代替予約方法**:\n" ++
            String.join ((checkRestaurantBookingAvailability r).alternative_methods.map
              (fun m => "• " ++ m ++ "\n"))
        else "")) : String) _ = true
    repeat
      first
      | exact strHas_append_self _ _
      | apply strHas_of_left
  · intro hlook
    show getSessionStatus st sid = _
    unfold getSessionStatus
    rw [hlook]

/-- Witness for C3's amended theorem at the spec's concrete example. -/
theorem unavailable_session_not_stored_witness :
    (startReservation [] kaisekiHanami "k1").1 = ([] : SessionStore) ∧
    (startReservation [] kaisekiHanami "k1").2.end_session = true ∧
    getSessionStatus (startReservation [] kaisekiHanami "k1").1 "k1" =
      { error := some "セッションが見つかりません" } :=
  ⟨(unavailable_session_not_stored [] kaisekiHanami "k1" (by decide)).1,
   (unavailable_session_not_stored [] kaisekiHanami "k1" (by decide)).2.1,
   (unavailable_session_not_stored [] kaisekiHanami "k1" (by decide)).2.2.2.2 rfl⟩

/-- Counterexample to C4: in the Toreta driver a failure of the date
field population alone aborts the run with a dedicated
`日付選択失敗` failure result that is neither a success, nor
semi-automated, nor the generic submission-failure result. -/
theorem field_population_abort_counterexample :
    ((toretaMakeReservation { dateOk := false } "https://yoyaku.toreta.in/x" "2025-12-25"
        "19:00" 2 sampleCustomer {}).1.error = some "日付選択失敗") ∧
    ((toretaMakeReservation { dateOk := false } "https://yoyaku.toreta.in/x" "2025-12-25"
        "19:00" 2 sampleCustomer {}).1.success = false) ∧
    ((toretaMakeReservation { dateOk := false } "https://yoyaku.toreta.in/x" "2025-12-25"
        "19:00" 2 sampleCustomer {}).1.semi_automated = false) ∧
    ¬ ((toretaMakeReservation { dateOk := false } "https://yoyaku.toreta.in/x" "2025-12-25"
        "19:00" 2 sampleCustomer {}).1.error = some "予約送信失敗") := by decide

/-- C4 amended: in the tabelog variant, once both bot-detection checks
and the entry-point gate pass (and no unexpected exception occurs),
population of the date, time and party-size fields is best-effort and
independent — the run returns the final semi-automated result regardless
of the outcomes of the individual field populations.  In the Toreta
variant this does not hold: a date-selection failure, a time/party
failure or a customer-info failure each abort the run with a dedicated
failure result. -/
theorem field_population_best_effort (o : TabelogObs) (o' : ToretaObs)
    (url d t : String) (n : Nat) (c : Contact) (st : BrowserState)
    (b1 b2 b3 b4 b5 : Bool) :
    (o.initOk = true → isTabelogUrl url = true →
      strHas o.navUrl1 "ai_request_booking" = false →
      o.entryFound = true → o.clickExn = false →
      strHas o.navUrl2 "ai_request_booking" = false →
      (tabelogMakeReservation
          { o with dateOk := b1, timeOk := b2, partyOk := b3, infoOk := b4, fillExn := b5 }
          url d t n c st).1 = tabelogSemiFinal url d t o.finalUrl n c ∧
      (tabelogSemiFinal url d t o.finalUrl n c).semi_automated = true ∧
      (tabelogSemiFinal url d t o.finalUrl n c).success = false) ∧
    (o'.initOk = true → o'.bodyExn = false → isToretaUrl url = true →
      (o'.dateOk = false →
        (toretaMakeReservation o' url d t n c st).1 =
          { success := false, error := some "日付選択失敗",
            message := some (d ++ " は予約できません") }) ∧
      (o'.dateOk = true → o'.timeOk = false →
        (toretaMakeReservation o' url d t n c st).1 =
          { success := false, error := some "時間・人数選択失敗",
            message := some (t ++ " " ++ toString n ++ "名での予約ができません") }) ∧
      (o'.dateOk = true → o'.timeOk = true → o'.infoOk = false →
        (toretaMakeReservation o' url d t n c st).1 =
          { success := false, error := some "顧客情報入力失敗",
            message := some "顧客情報の入力に失敗しました" })) := by
  constructor
  · intro h1 h2 h3 h4 h5 h6
    refine ⟨?_, rfl, rfl⟩
    unfold tabelogMakeReservation
    simp [h1, h2, h3, h4, h5, h6]
  · intro h1 h2 h3
    refine ⟨?_, ?_, ?_⟩
    · intro hd
      unfold toretaMakeReservation
      simp [h1, h2, h3, hd]
    · intro hd ht
      unfold toretaMakeReservation
      simp [h1, h2, h3, hd, ht]
    · intro hd ht hi
      unfold toretaMakeReservation
      simp [h1, h2, h3, hd, ht, hi]

/-- Witness for C4's amended theorem: a tabelog run with every field
population failing still converges to the semi-automated result, and a
toreta run with a failed date selection aborts. -/
theorem field_population_best_effort_witness :
    (tabelogMakeReservation
        { navUrl1 := "https://tabelog.com/tokyo/A1301/", navUrl2 := "https://tabelog.com/x/rsv",
          finalUrl := "https://tabelog.com/x/rsv", dateOk := false, timeOk := false,
          partyOk := false, infoOk := false, fillExn := true }
        "https://tabelog.com/tokyo/A1301/" "2025-12-25" "19:00" 2 sampleCustomer {}).1 =
      tabelogSemiFinal "https://tabelog.com/tokyo/A1301/" "2025-12-25" "19:00"
        "https://tabelog.com/x/rsv" 2 sampleCustomer ∧
    (toretaMakeReservation { dateOk := false } "https://yoyaku.toreta.in/x" "2025-12-25"
        "19:00" 2 sampleCustomer {}).1 =
      { success := false, error := some "日付選択失敗",
        message := some ("2025-12-25" ++ " は予約できません") } :=
  ⟨((field_population_best_effort
      { navUrl1 := "https://tabelog.com/tokyo/A1301/", navUrl2 := "https://tabelog.com/x/rsv",
        finalUrl := "https://tabelog.com/x/rsv" } {}
      "https://tabelog.com/tokyo/A1301/" "2025-12-25" "19:00" 2 sampleCustomer {}
      false false false false true).1
      rfl (by decide) (by decide) rfl rfl (by decide)).1,
   ((field_population_best_effort {} { dateOk := false }
      "https://yoyaku.toreta.in/x" "2025-12-25" "19:00" 2 sampleCustomer {}
      true true true true true).2
      rfl rfl (by decide)).1 rfl⟩

/-- Toreta-booked restaurant used by the C5 counterexample. -/
def c5Restaurant : Restaurant :=
  { name := "くら寿司 渋谷店", address := "渋谷", phone_number := "03-1111-2222",
    website := "https://yoyaku.toreta.in/shop", place_id := "p2" }

/-- A completed session sitting at the confirmation step. -/
def c5Session : Session :=
  { restaurant := c5Restaurant,
    data := { datetime := some "2025-12-25T19:00:00", party_size := some 3,
              contact := some { name := "田中太郎", phone := "090-1234-5678",
                                email := some "tanaka@example.com" },
              email := some "tanaka@example.com" },
    step := "confirmation",
    availability := checkRestaurantBookingAvailability c5Restaurant }

/-- Environment whose driver answers with *both* `error = ai_detection`
and `semi_automated = true` (the shape the tabelog driver's second
bot-detection gate produces). -/
def c5Env : StepEnv :=
  { fromiso := fun s => if s == "2025-12-25T19:00:00" then some 100 else none,
    now := 10, fmtDT := fun _ => "2025年12月25日 19:00",
    toretaServiceResult :=
      { success := false, error := some "ai_detection",
        semi_automated := true, browser_opened := true } }

/-- Counterexample to C5: a booking result whose `error_kind` is
`ai_detection` does not always map to `ai_blocked` — when the result
also carries `semi_automated = true`, the `semi_automated` check runs
first and the turn resolves to the `semi_automated` step. -/
theorem booking_result_mapping_counterexample :
    c5Env.toretaServiceResult.error = some "ai_detection" ∧
    (processReservationStep c5Env [("t1", c5Session)] "t1" "実行").2.step =
      some "semi_automated" ∧
    ¬ (processReservationStep c5Env [("t1", c5Session)] "t1" "実行").2.step =
      some "ai_blocked" := by decide

section
attribute [local irreducible] strHas

set_option maxHeartbeats 1600000 in
/-- C5 amended: the confirmation-step mapping of a failed booking result
checks `semi_automated` first: a semi-automated result maps to the
`semi_automated` step (not flagged as an error, message carrying the
pre-filled values and the manual completion instructions when the
browser was opened); a result with `error_kind = ai_detection` maps to
`ai_blocked` *only when it is not also semi-automated*, with a message
containing the phone fallback and the direct link and the open-site /
call-now / search-alternative options; any other failure maps to a
retry-capable `completed` response with `success = false` and the
retry/phone/abandon options.  In all three cases the stored session is
left at `confirmation` (the store is unchanged). -/
theorem booking_result_mapping (env : StepEnv) (st : SessionStore) (sid input : String)
    (sess : Session) (c : Contact) (dts : String) (t : Int)
    (hl : storeLookup st sid = some sess)
    (hstep : sess.step = "confirmation")
    (hexec : (strHas input "実行" || strHas input "はい" || strHas (strLower input) "ok" ||
        strHas (strLower input) "yes" || strHas input "✅") = true)
    (hnotTab : strHas sess.restaurant.website "tabelog.com" = false)
    (hToreta : (strHas sess.restaurant.website "toreta.in" ||
        strHas sess.restaurant.website "toreta-reserve") = true)
    (hdt : sess.data.datetime = some dts)
    (hparse : env.fromiso dts = some t)
    (hcont : sess.data.contact = some c)
    (hfail : env.toretaServiceResult.success = false) :
    (env.toretaServiceResult.semi_automated = true →
      (processReservationStep env st sid input).1 = st ∧
      (processReservationStep env st sid input).2.step = some "semi_automated" ∧
      (processReservationStep env st sid input).2.errorFlag = some false ∧
      (processReservationStep env st sid input).2.success = some false ∧
      (processReservationStep env st sid input).2.options =
        ["✅ ブラウザで予約を完了しました", "📞 電話で予約する", "🔄 別のレストランを探す"] ∧
      (env.toretaServiceResult.browser_opened = true →
        strHas (processReservationStep env st sid input).2.message
          (joinSep "\n" env.toretaServiceResult.instructions) = true ∧
        strHas (processReservationStep env st sid input).2.message
          ((env.toretaServiceResult.booking_info.getD {}).date.getD "未設定") = true)) ∧
    (env.toretaServiceResult.semi_automated = false →
      env.toretaServiceResult.error = some "ai_detection" →
      (processReservationStep env st sid input).1 = st ∧
      (processReservationStep env st sid input).2.step = some "ai_blocked" ∧
      (processReservationStep env st sid input).2.errorFlag = some true ∧
      (processReservationStep env st sid input).2.success = some false ∧
      (processReservationStep env st sid input).2.phone_number =
        some (env.toretaServiceResult.phone_number.getD sess.restaurant.phone_number) ∧
      (processReservationStep env st sid input).2.options =
        ["📱 食べログサイトを開く", "📞 今すぐ電話する", "🔍 別のレストランを探す", "💡 他の予約サイトを使う"] ∧
      strHas (processReservationStep env st sid input).2.message
        (env.toretaServiceResult.phone_number.getD sess.restaurant.phone_number) = true ∧
      strHas (processReservationStep env st sid input).2.message
        (env.toretaServiceResult.restaurant_url.getD sess.restaurant.website) = true) ∧
    (env.toretaServiceResult.semi_automated = false →
      ¬ env.toretaServiceResult.error = some "ai_detection" →
      (processReservationStep env st sid input).1 = st ∧
      (processReservationStep env st sid input).2.step = some "completed" ∧
      (processReservationStep env st sid input).2.success = some false ∧
      (processReservationStep env st sid input).2.errorFlag = some true ∧
      (processReservationStep env st sid input).2.options =
        ["🔄 もう一度試す", "📞 電話予約の案内", "❌ 終了"]) := by
  have hred : processReservationStep env st sid input =
      handleConfirmation env st sid input := by
    unfold processReservationStep
    simp [hl, hstep]
  have hbr : execToretaBooking env sess.restaurant sess.data = env.toretaServiceResult := by
    unfold execToretaBooking
    simp [hdt, hparse, hcont]
  refine ⟨?_, ?_, ?_⟩
  · intro hsemi
    have hresp : processReservationStep env st sid input =
        (st, { session_id := some sid,
               message := createErrorMessage env.toretaServiceResult sess.restaurant,
               step := some "semi_automated", success := some false,
               errorFlag := some false, processing := some false,
               browser_opened := some env.toretaServiceResult.browser_opened,
               booking_info := some (env.toretaServiceResult.booking_info.getD {}),
               restaurant_url :=
                 some (env.toretaServiceResult.restaurant_url.getD sess.restaurant.website),
               options := ["✅ ブラウザで予約を完了しました", "📞 電話で予約する",
                           "🔄 別のレストランを探す"] }) := by
      rw [hred]
      unfold handleConfirmation
      simp only [hexec, if_true, hl]
      simp only [hnotTab, Bool.false_eq_true, if_false, hToreta, if_true, hbr, hfail, hsemi]
    rw [hresp]
    refine ⟨rfl, rfl, rfl, rfl, rfl, ?_⟩
    intro hbo
    have hmsg : createErrorMessage env.toretaServiceResult sess.restaurant =
        semiBrowserOpenedMsg (env.toretaServiceResult.booking_info.getD {})
          (joinSep "\n" env.toretaServiceResult.instructions) := by
      unfold createErrorMessage
      simp [hsemi, hbo]
    constructor
    · show strHas (createErrorMessage env.toretaServiceResult sess.restaurant) _ = true
      rw [hmsg]
      unfold semiBrowserOpenedMsg
      repeat
        first
        | exact strHas_append_self _ _
        | apply strHas_of_left
    · show strHas (createErrorMessage env.toretaServiceResult sess.restaurant) _ = true
      rw [hmsg]
      unfold semiBrowserOpenedMsg
      repeat
        first
        | exact strHas_append_self _ _
        | apply strHas_of_left
  · intro hsemi herr
    have herr' : (env.toretaServiceResult.error.getD "unknown" == "ai_detection") = true := by
      rw [herr]
      decide
    have hresp : processReservationStep env st sid input =
        (st, { session_id := some sid,
               message := createErrorMessage env.toretaServiceResult sess.restaurant,
               step := some "ai_blocked", success := some false,
               errorFlag := some true, processing := some false,
               booking_info := some (env.toretaServiceResult.booking_info.getD {}),
               restaurant_url :=
                 some (env.toretaServiceResult.restaurant_url.getD sess.restaurant.website),
               phone_number :=
                 some (env.toretaServiceResult.phone_number.getD sess.restaurant.phone_number),
               options := ["📱 食べログサイトを開く", "📞 今すぐ電話する",
                           "🔍 別のレストランを探す", "💡 他の予約サイトを使う"] }) := by
      rw [hred]
      unfold handleConfirmation
      simp only [hexec, if_true, hl]
      simp only [hnotTab, Bool.false_eq_true, if_false, hToreta, if_true, hbr, hfail, hsemi,
        herr]
      rfl
    have hmsg : createErrorMessage env.toretaServiceResult sess.restaurant =
        aiDetectionMsg env.toretaServiceResult sess.restaurant := by
      unfold createErrorMessage
      simp [hsemi, herr']
    rw [hresp]
    refine ⟨rfl, rfl, rfl, rfl, rfl, rfl, ?_, ?_⟩
    · show strHas (createErrorMessage env.toretaServiceResult sess.restaurant) _ = true
      rw [hmsg]
      unfold aiDetectionMsg
      dsimp only
      repeat
        first
        | exact strHas_append_self _ _
        | apply strHas_of_left
    · show strHas (createErrorMessage env.toretaServiceResult sess.restaurant) _ = true
      rw [hmsg]
      unfold aiDetectionMsg
      dsimp only
      repeat
        first
        | exact strHas_append_self _ _
        | apply strHas_of_left
  · intro hsemi herr
    have herr' : (env.toretaServiceResult.error == some "ai_detection") = false := by
      simpa using herr
    have hresp : processReservationStep env st sid input =
        (st, { session_id := some sid,
               message := createErrorMessage env.toretaServiceResult sess.restaurant,
               step := some "completed", success := some false,
               errorFlag := some true, processing := some false,
               options := ["🔄 もう一度試す", "📞 電話予約の案内", "❌ 終了"] }) := by
      rw [hred]
      unfold handleConfirmation
      simp only [hexec, if_true, hl]
      simp only [hnotTab, Bool.false_eq_true, if_false, hToreta, if_true, hbr, hfail, hsemi,
        herr']
    rw [hresp]
    exact ⟨rfl, rfl, rfl, rfl, rfl⟩

end

/-- Environment whose driver answers a pure (non-semi-automated)
AI-detection failure. -/
def c5EnvW : StepEnv :=
  { fromiso := fun s => if s == "2025-12-25T19:00:00" then some 100 else none,
    now := 10, fmtDT := fun _ => "2025年12月25日 19:00",
    toretaServiceResult :=
      { success := false, error := some "ai_detection",
        phone_number := some "03-1111-2222",
        restaurant_url := some "https://yoyaku.toreta.in/shop" } }

/-- Witness for C5's amended theorem: a pure AI-detection failure maps
to `ai_blocked` and its message carries the phone fallback. -/
theorem booking_result_mapping_witness :
    (processReservationStep c5EnvW [("t1", c5Session)] "t1" "実行").2.step =
      some "ai_blocked" ∧
    strHas (processReservationStep c5EnvW [("t1", c5Session)] "t1" "実行").2.message
      (c5EnvW.toretaServiceResult.phone_number.getD c5Session.restaurant.phone_number) =
      true :=
  ⟨((booking_result_mapping c5EnvW [("t1", c5Session)] "t1" "実行" c5Session
      { name := "田中太郎", phone := "090-1234-5678", email := some "tanaka@example.com" }
      "2025-12-25T19:00:00" 100 (by decide) rfl (by decide) (by decide) (by decide) rfl
      (by decide) rfl rfl).2.1 rfl rfl).2.1,
   ((booking_result_mapping c5EnvW [("t1", c5Session)] "t1" "実行" c5Session
      { name := "田中太郎", phone := "090-1234-5678", email := some "tanaka@example.com" }
      "2025-12-25T19:00:00" 100 (by decide) rfl (by decide) (by decide) (by decide) rfl
      (by decide) rfl rfl).2.1 rfl rfl).2.2.2.2.2.2.1⟩

/-- Lookup after `cancel_session` never finds the id again. -/
theorem storeLookup_cancel (st : SessionStore) (sid : String) :
    storeLookup (cancelSession st sid).1 sid = none := by
  unfold cancelSession
  cases hl : storeLookup st sid with
  | none => exact hl
  | some sess => exact storeLookup_erase_self st sid

/-- C6: a cancel intent at the confirmation step deletes the session:
the store loses the id, the response carries the cancelled flag with the
farewell message (its `step` field is the literal `completed`), and any
subsequent `process_reservation_step` on the same id — likewise after an
explicit `cancel_session` — answers the session-not-found error telling
the caller to restart. -/
theorem cancel_intent_deletes_session (env : StepEnv) (st : SessionStore)
    (sid input : String) (sess : Session)
    (hl : storeLookup st sid = some sess)
    (hstep : sess.step = "confirmation")
    (hnoexec : (strHas input "実行" || strHas input "はい" || strHas (strLower input) "ok" ||
        strHas (strLower input) "yes" || strHas input "✅") = false)
    (hcancel : (strHas input "キャンセル" || strHas (strLower input) "cancel") = true) :
    (processReservationStep env st sid input).1 = storeErase st sid ∧
    (processReservationStep env st sid input).2.cancelled = true ∧
    (processReservationStep env st sid input).2.step = some "completed" ∧
    (processReservationStep env st sid input).2.message =
      "❌ 予約をキャンセルしました。\nまた機会がございましたらお気軽にお声がけください。" ∧
    storeLookup (processReservationStep env st sid input).1 sid = none ∧
    (∀ (env2 : StepEnv) (input2 : String),
      (processReservationStep env2 (processReservationStep env st sid input).1 sid input2).1 =
        (processReservationStep env st sid input).1 ∧
      (processReservationStep env2 (processReservationStep env st sid input).1 sid
        input2).2.restart_needed = true ∧
      (processReservationStep env2 (processReservationStep env st sid input).1 sid
        input2).2.errorMsg = some "セッションが見つかりません。新しい予約を開始してください。") ∧
    (∀ (st2 : SessionStore) (env2 : StepEnv) (input2 : String),
      (processReservationStep env2 (cancelSession st2 sid).1 sid input2).2.restart_needed =
        true ∧
      (processReservationStep env2 (cancelSession st2 sid).1 sid input2).2.errorMsg =
        some "セッションが見つかりません。新しい予約を開始してください。") := by
  have hres : processReservationStep env st sid input =
      (storeErase st sid,
       { message := "❌ 予約をキャンセルしました。\nまた機会がございましたらお気軽にお声がけください。",
         step := some "completed", cancelled := true }) := by
    unfold processReservationStep
    simp [hl, hstep]
    unfold handleConfirmation
    simp [hnoexec, hcancel, hl]
  have herased : storeLookup (storeErase st sid) sid = none := storeLookup_erase_self st sid
  refine ⟨by rw [hres], by rw [hres], by rw [hres], by rw [hres], by rw [hres]; exact herased,
    ?_, ?_⟩
  · intro env2 input2
    rw [hres]
    unfold processReservationStep
    rw [herased]
    exact ⟨rfl, rfl, rfl⟩
  · intro st2 env2 input2
    have h2 : storeLookup (cancelSession st2 sid).1 sid = none :=
      storeLookup_cancel st2 sid
    unfold processReservationStep
    rw [h2]
    exact ⟨rfl, rfl⟩

/-- Witness for C6 at a concrete confirmation-step session. -/
theorem cancel_intent_deletes_session_witness :
    (processReservationStep c5Env [("t1", c5Session)] "t1" "キャンセル").1 =
      storeErase [("t1", c5Session)] "t1" ∧
    (processReservationStep c5Env [("t1", c5Session)] "t1" "キャンセル").2.cancelled = true ∧
    (processReservationStep c5Env
      (processReservationStep c5Env [("t1", c5Session)] "t1" "キャンセル").1 "t1"
      "続行").2.restart_needed = true :=
  ⟨(cancel_intent_deletes_session c5Env [("t1", c5Session)] "t1" "キャンセル" c5Session
      (by decide) rfl (by decide) (by decide)).1,
   (cancel_intent_deletes_session c5Env [("t1", c5Session)] "t1" "キャンセル" c5Session
      (by decide) rfl (by decide) (by decide)).2.1,
   ((cancel_intent_deletes_session c5Env [("t1", c5Session)] "t1" "キャンセル" c5Session
      (by decide) rfl (by decide) (by decide)).2.2.2.2.2.1 c5Env "続行").2.1⟩

/-- C7: when a step's extractor fails on the raw input, the handler
answers the same step with the error flag and a nonempty re-prompt
message, and leaves the session store — collected fields and step —
unchanged.  Stated for the four extractor-backed steps: datetime (via
the language-model oracle), party size, contact, and email. -/
theorem extractor_failure_frame (env : StepEnv) (st : SessionStore) (sid input : String)
    (sess : Session) (hl : storeLookup st sid = some sess) :
    (sess.step = "datetime_input" → isBulkInput input = false →
      parseDatetimeWithAI env input = none →
      (processReservationStep env st sid input).1 = st ∧
      (processReservationStep env st sid input).2.step = some sess.step ∧
      (processReservationStep env st sid input).2.errorFlag = some true ∧
      ¬ (processReservationStep env st sid input).2.message = "") ∧
    (sess.step = "party_size_input" →
      (extractPartySize input = none ∨ extractPartySize input = some 0) →
      (processReservationStep env st sid input).1 = st ∧
      (processReservationStep env st sid input).2.step = some sess.step ∧
      (processReservationStep env st sid input).2.errorFlag = some true ∧
      ¬ (processReservationStep env st sid input).2.message = "") ∧
    (sess.step = "contact_info_input" →
      ((extractContactInfo input).name = "" ∨ (extractContactInfo input).phone = "") →
      (processReservationStep env st sid input).1 = st ∧
      (processReservationStep env st sid input).2.step = some sess.step ∧
      (processReservationStep env st sid input).2.errorFlag = some true ∧
      ¬ (processReservationStep env st sid input).2.message = "") ∧
    (sess.step = "email_input" → emailMatches (pyStrip input) = false →
      (processReservationStep env st sid input).1 = st ∧
      (processReservationStep env st sid input).2.step = some sess.step ∧
      (processReservationStep env st sid input).2.errorFlag = some true ∧
      ¬ (processReservationStep env st sid input).2.message = "") := by
  refine ⟨?_, ?_, ?_, ?_⟩
  · intro hstep hnb hx
    have hred : processReservationStep env st sid input =
        handleDatetimeInput env st sid input := by
      unfold processReservationStep
      simp [hl, hstep]
    rw [hstep, hred]
    unfold handleDatetimeInput
    simp [hnb, hx]
  · intro hstep hx
    have hred : processReservationStep env st sid input =
        handlePartySizeInput env st sid input := by
      unfold processReservationStep
      simp [hl, hstep]
    rw [hstep, hred]
    unfold handlePartySizeInput
    rcases hx with hx | hx
    · simp [hx, psFailResponse]
    · simp [hx, psFailResponse]
  · intro hstep hx
    have hred : processReservationStep env st sid input =
        handleContactInfoInput env st sid input := by
      unfold processReservationStep
      simp [hl, hstep]
    rw [hstep, hred]
    unfold handleContactInfoInput
    have hcond : ((extractContactInfo input).name.isEmpty ||
        (extractContactInfo input).phone.isEmpty) = true := by
      rcases hx with hx | hx
      · simp [hx]
        exact Or.inl (by decide)
      · simp [hx]
        exact Or.inr (by decide)
    simp [hcond]
  · intro hstep hx
    have hred : processReservationStep env st sid input =
        handleEmailInput env st sid input := by
      unfold processReservationStep
      simp [hl, hstep]
    rw [hstep, hred]
    unfold handleEmailInput
    simp [hx]

/-- Witness for C7: the party-size extractor fails on `abc` and the
handler re-prompts without touching the store. -/
theorem extractor_failure_frame_witness :
    (processReservationStep c5Env
        [("p1", { c5Session with step := "party_size_input" })] "p1" "abc").1 =
      [("p1", { c5Session with step := "party_size_input" })] ∧
    (processReservationStep c5Env
        [("p1", { c5Session with step := "party_size_input" })] "p1" "abc").2.errorFlag =
      some true :=
  ⟨((extractor_failure_frame c5Env [("p1", { c5Session with step := "party_size_input" })]
      "p1" "abc" { c5Session with step := "party_size_input" } (by decide)).2.1 rfl
      (Or.inl (by decide))).1,
   ((extractor_failure_frame c5Env [("p1", { c5Session with step := "party_size_input" })]
      "p1" "abc" { c5Session with step := "party_size_input" } (by decide)).2.1 rfl
      (Or.inl (by decide))).2.2.1⟩

/-- A trace that drives the bulk single-message form with `人数: 0名`. -/
def c8Ops : List Op :=
  [Op.start c5Restaurant "s1",
   Op.pstep "s1"
     "日時: 2025-12-25 19:00, 人数: 0名, 名前: 田中太郎, 電話: 090-1234-5678, メール: tanaka@example.com"
     { }]

/-- C8: counterexample — the bulk form path stores `int(party)` without a
positivity check, so a `人数: 0名` message leaves a session whose
collected `party_size` is `0`, refuting the positive-integer invariant
as stated (which explicitly includes the bulk path). -/
theorem party_size_positive_counterexample :
    (storeLookup (runOps c8Ops) "s1").bind (fun s => s.data.party_size) = some 0 ∧
    ¬ (∀ p, (storeLookup (runOps c8Ops) "s1").bind (fun s => s.data.party_size) =
        some p → 1 ≤ p) := by
  constructor
  · decide
  · intro hcl
    exact absurd (hcl 0 (by decide)) (by decide)

/-- C8 (amended): over any trace of operations that stays off the bulk
single-message form path, a stored `party_size` is always at least 1 —
the per-turn party-size handler rejects an extracted 0 via the falsy
check. -/
theorem party_size_positive (ops : List Op) (hops : ∀ op ∈ ops, opNoBulk op)
    (sid : String) (sess : Session) (p : Nat)
    (hl : storeLookup (runOps ops) sid = some sess)
    (hp : sess.data.party_size = some p) : 1 ≤ p :=
  psPos_runOps ops hops (sid, sess) (storeLookup_mem hl) p hp

/-- Step oracle: tomorrow-19:00 parses to timestamp 100, later than now. -/
def c8Env : StepEnv :=
  { fromiso := fun s => if s == "2025-12-25T19:00:00" then some 100 else none,
    now := 10, fmtDT := fun _ => "2025年12月25日 19:00",
    aiText := "2025-12-25T19:00:00" }

/-- A bulk-free trace that sets the party size through the per-turn path. -/
def c8WOps : List Op :=
  [Op.start c5Restaurant "s1",
   Op.pstep "s1" "明日の19時" c8Env,
   Op.pstep "s1" "3名" c8Env]

/-- The session reached by `c8WOps`. -/
def c8WSess : Session :=
  { restaurant := c5Restaurant,
    data := { datetime := some "2025-12-25T19:00:00", party_size := some 3 },
    step := "contact_info_input",
    availability := checkRestaurantBookingAvailability c5Restaurant }

/-- Witness for the amended C8 on a concrete bulk-free trace. -/
theorem party_size_positive_witness :
    (∀ op ∈ c8WOps, opNoBulk op) ∧
    storeLookup (runOps c8WOps) "s1" = some c8WSess ∧
    c8WSess.data.party_size = some 3 ∧ 1 ≤ 3 := by
  have hops : ∀ op ∈ c8WOps, opNoBulk op := by
    intro op hop
    simp only [c8WOps, List.mem_cons, List.not_mem_nil, or_false] at hop
    rcases hop with rfl | rfl | rfl
    · exact trivial
    · exact (by decide : isBulkInput "明日の19時" = false)
    · exact (by decide : isBulkInput "3名" = false)
  exact ⟨hops, by decide, by decide,
    party_size_positive c8WOps hops "s1" c8WSess 3 (by decide) (by decide)⟩

/-- C9: the datetime extractor accepts exactly the stripped
language-model replies that are not the rejection token, parse with
`fromisoformat`, and denote a time strictly later than now; on failure
the datetime step re-prompts at the same step with the error flag and an
unchanged store. -/
theorem datetime_extractor_strict (env : StepEnv) (input : String) :
    (∀ s, parseDatetimeWithAI env input = some s ↔
      (env.aiRaises = false ∧ s = pyStrip env.aiText ∧
       ¬ pyStrip env.aiText = "INVALID" ∧
       ∃ t, env.fromiso (pyStrip env.aiText) = some t ∧ env.now < t)) ∧
    (parseDatetimeWithAI env input = none →
      ∀ (st : SessionStore) (sid : String) (sess : Session),
        storeLookup st sid = some sess → sess.step = "datetime_input" →
        isBulkInput input = false →
        (processReservationStep env st sid input).1 = st ∧
        (processReservationStep env st sid input).2.step = some "datetime_input" ∧
        (processReservationStep env st sid input).2.errorFlag = some true) := by
  constructor
  · intro s
    by_cases hr : env.aiRaises = true
    · constructor
      · intro h
        unfold parseDatetimeWithAI at h
        rw [if_pos hr] at h
        exact absurd h (by simp)
      · rintro ⟨hr0, -⟩
        rw [hr] at hr0
        exact absurd hr0 (by simp)
    · have hr' : env.aiRaises = false := by simpa using hr
      by_cases hi : pyStrip env.aiText = "INVALID"
      · constructor
        · intro h
          unfold parseDatetimeWithAI at h
          rw [if_neg hr] at h
          rw [if_pos (by simp [hi])] at h
          exact absurd h (by simp)
        · rintro ⟨-, -, hni, -⟩
          exact absurd hi hni
      · cases hf : env.fromiso (pyStrip env.aiText) with
        | none =>
          constructor
          · intro h
            unfold parseDatetimeWithAI at h
            rw [if_neg hr] at h
            rw [if_neg (by simp [hi])] at h
            rw [hf] at h
            exact absurd h (by simp)
          · rintro ⟨-, -, -, t, ht, -⟩
            exact absurd ht (by simp)
        | some t0 =>
          by_cases hle : t0 ≤ env.now
          · constructor
            · intro h
              unfold parseDatetimeWithAI at h
              rw [if_neg hr] at h
              rw [if_neg (by simp [hi])] at h
              rw [hf] at h
              simp [hle] at h
            · rintro ⟨-, -, -, t, ht, hlt⟩
              have ht' := Option.some.inj ht
              omega
          · have hlt0 : env.now < t0 := lt_of_not_le hle
            constructor
            · intro h
              unfold parseDatetimeWithAI at h
              rw [if_neg hr] at h
              rw [if_neg (by simp [hi])] at h
              rw [hf] at h
              simp [hle] at h
              exact ⟨hr', h.symm, hi, t0, rfl, hlt0⟩
            · rintro ⟨-, hs, -, t, ht, hlt⟩
              unfold parseDatetimeWithAI
              rw [if_neg hr]
              rw [if_neg (by simp [hi])]
              rw [hf]
              simp [hle, hs]
  · intro hnone st sid sess hl hstep hnb
    have hred : processReservationStep env st sid input =
        handleDatetimeInput env st sid input := by
      unfold processReservationStep
      simp [hl, hstep]
    rw [hred]
    unfold handleDatetimeInput
    simp [hnb, hnone]

/-- A fresh session sitting at the datetime step. -/
def c9Sess : Session :=
  { restaurant := c5Restaurant, step := "datetime_input",
    availability := checkRestaurantBookingAvailability c5Restaurant }

/-- Witness for C9: a future-parsing reply is accepted, and an
uninterpretable turn re-prompts with the error flag. -/
theorem datetime_extractor_strict_witness :
    parseDatetimeWithAI c8Env "明日の19時" = some "2025-12-25T19:00:00" ∧
    (processReservationStep { } [("d1", c9Sess)] "d1" "夕方").2.errorFlag = some true := by
  constructor
  · exact ((datetime_extractor_strict c8Env "明日の19時").1 "2025-12-25T19:00:00").mpr
      ⟨rfl, by decide, by decide, 100, by decide, by decide⟩
  · exact ((datetime_extractor_strict { } "夕方").2 (by decide) [("d1", c9Sess)] "d1"
      c9Sess (by decide) rfl (by decide)).2.2

/-- C10: at the special-requests step of any reachable session whose
collected datetime parses, the handler succeeds on every raw input:
the turn answers the confirmation step without an error flag, and the
stored session moves to `confirmation` with `special_requests` absent
when the input is `なし`, `none` or empty (lowercased), and the verbatim
input otherwise. -/
theorem special_requests_total (ops : List Op) (sid input : String) (env : StepEnv)
    (sess : Session) (dts : String) (t : Int)
    (hl : storeLookup (runOps ops) sid = some sess)
    (hstep : sess.step = "special_requests_input")
    (hdt : sess.data.datetime = some dts)
    (hiso : env.fromiso dts = some t) :
    (processReservationStep env (runOps ops) sid input).2.step = some "confirmation" ∧
    (processReservationStep env (runOps ops) sid input).2.errorFlag = some false ∧
    storeLookup (processReservationStep env (runOps ops) sid input).1 sid =
      some { sess with
        data := { sess.data with special_requests :=
          (if (strLower input == "なし" || strLower input == "none" ||
               strLower input == "") = true then none else some input) },
        step := "confirmation" } := by
  have hc := contactAtSR_runOps ops (sid, sess) (storeLookup_mem hl) hstep
  obtain ⟨c, hcon⟩ : ∃ c, sess.data.contact = some c := by
    cases hx : sess.data.contact with
    | none => rw [hx] at hc; exact absurd hc (by simp)
    | some c => exact ⟨c, rfl⟩
  have hred : processReservationStep env (runOps ops) sid input =
      handleSpecialRequestsInput env (runOps ops) sid input := by
    unfold processReservationStep
    simp [hl, hstep]
  rw [hred]
  unfold handleSpecialRequestsInput
  simp only [hl, hdt, hiso, hcon]
  refine ⟨trivial, trivial, ?_⟩
  exact storeLookup_insert_self (runOps ops) sid _

/-- A full per-turn trace up to the special-requests step. -/
def c10Ops : List Op :=
  [Op.start c5Restaurant "s1",
   Op.pstep "s1" "明日の19時" c8Env,
   Op.pstep "s1" "3名" c8Env,
   Op.pstep "s1" "田中太郎 090-1234-5678" c8Env,
   Op.pstep "s1" "tanaka@example.com" c8Env]

/-- The session reached by `c10Ops`. -/
def c10Sess : Session :=
  { restaurant := c5Restaurant,
    data := { datetime := some "2025-12-25T19:00:00", party_size := some 3,
              contact := some { name := "田中太郎", phone := "090-1234-5678",
                                email := some "tanaka@example.com" },
              email := some "tanaka@example.com" },
    step := "special_requests_input",
    availability := checkRestaurantBookingAvailability c5Restaurant }

/-- Witness for C10 on a concrete trace with the `なし` input. -/
theorem special_requests_total_witness :
    storeLookup (runOps c10Ops) "s1" = some c10Sess ∧
    (processReservationStep c8Env (runOps c10Ops) "s1" "なし").2.step =
      some "confirmation" ∧
    storeLookup (processReservationStep c8Env (runOps c10Ops) "s1" "なし").1 "s1" =
      some { c10Sess with
        data := { c10Sess.data with special_requests := none },
        step := "confirmation" } := by
  have h := special_requests_total c10Ops "s1" "なし" c8Env c10Sess "2025-12-25T19:00:00"
    100 (by decide) rfl rfl (by decide)
  exact ⟨by decide, h.1, h.2.2.trans (by decide)⟩

end FoodAI
